import Mathlib

/-!
# Record / replay harness of `mwe_glfw_input_replay` (`main.cpp`)

A shallow embedding of the program: the global variables and the locals of `main`
captured by the two lambdas are the fields of one record `World`, every function of
the source is a function on `World`.

* `float` coordinates are an arbitrary type `F` with `0`, `1`, `+`, `-`, `*`; durations
  (`double`) are an arbitrary type `D`; `static_cast<float>` is `FloatCast.cast`.
  Nothing is assumed about these operations unless a theorem says so.
* `std::vector` is `List`; `operator[]` is unchecked in C++, so a read at or past the
  size is the fault `UndefinedBehaviour`.
* What the program writes to `std::cout` is the list `cout` of structured lines.
* The windowing library is the record `GLFW`: what each real poll delivers and what each
  real close query answers, together with counters of the real calls made so far.
-/

namespace GlfwInputReplay

/-! ## Numbers and vectors -/

/-- Conversion `static_cast<float>(dt)` (main.cpp:54) from durations `D` to coordinates `F`. -/
class FloatCast (D F : Type) where
  cast : D → F

/-- Struct `Vec3` (main.cpp:10-31). -/
structure Vec3 (F : Type) where
  x : F
  y : F
  z : F
deriving DecidableEq, Repr

/-- Default member initialisers of `Vec3`: `x = 0, y = 0, z = 0` (main.cpp:11-13). -/
def Vec3.init {F : Type} [Zero F] : Vec3 F := ⟨0, 0, 0⟩

/-- Method `Vec3::operator+` (main.cpp:21). -/
def Vec3.add {F : Type} [Add F] (a other : Vec3 F) : Vec3 F :=
  ⟨a.x + other.x, a.y + other.y, a.z + other.z⟩

/-- Method `Vec3::operator+=` (main.cpp:23-28): the new value of `*this`. -/
def Vec3.add_assign {F : Type} [Add F] (a other : Vec3 F) : Vec3 F :=
  let a := { a with x := a.x + other.x }
  let a := { a with y := a.y + other.y }
  { a with z := a.z + other.z }

/-- Method `Vec3::operator*` (main.cpp:30). -/
def Vec3.mul {F : Type} [Mul F] (a : Vec3 F) (scalar : F) : Vec3 F :=
  ⟨a.x * scalar, a.y * scalar, a.z * scalar⟩

/-! ## Simulation state -/

/-- Struct `StateUpdateData` (main.cpp:36-41): the four key booleans and the last `dt`. -/
structure StateUpdateData (D : Type) where
  up_pressed : Bool
  down_pressed : Bool
  left_pressed : Bool
  right_pressed : Bool
  dt : D
deriving DecidableEq, Repr

/-- Value `StateUpdateData{}`: all keys released, `dt = 0.0` (main.cpp:37-41). -/
def StateUpdateData.init {D : Type} [Zero D] : StateUpdateData D :=
  ⟨false, false, false, false, 0⟩

/-- Method `StateUpdateData::get_delta_pos` (main.cpp:44-55). -/
def StateUpdateData.get_delta_pos {F D : Type} [Zero F] [One F] [Add F] [Sub F] [Mul F]
    [FloatCast D F] (s : StateUpdateData D) : Vec3 F :=
  let movement : Vec3 F := Vec3.init
  let movement := if s.up_pressed then { movement with y := movement.y + 1 } else movement
  let movement := if s.down_pressed then { movement with y := movement.y - 1 } else movement
  let movement := if s.left_pressed then { movement with x := movement.x - 1 } else movement
  let movement := if s.right_pressed then { movement with x := movement.x + 1 } else movement
  movement.mul (FloatCast.cast s.dt)

/-- Struct `State` (main.cpp:66-68). -/
structure State (F : Type) where
  position : Vec3 F
deriving DecidableEq, Repr

/-- Value `State{}`: the origin. -/
def State.init {F : Type} [Zero F] : State F := ⟨Vec3.init⟩

/-- Struct `KeyCallbackArgs` (main.cpp:73-79). -/
structure KeyCallbackArgs where
  key : Int
  scancode : Int
  action : Int
  mods : Int
deriving DecidableEq, Repr

/-! ## Constants of `GLFW/glfw3.h` used by the listener -/

def GLFW_RELEASE : Int := 0
def GLFW_PRESS : Int := 1
def GLFW_REPEAT : Int := 2
def GLFW_KEY_A : Int := 65
def GLFW_KEY_D : Int := 68
def GLFW_KEY_S : Int := 83
def GLFW_KEY_W : Int := 87
def GLFW_KEY_RIGHT : Int := 262
def GLFW_KEY_LEFT : Int := 263
def GLFW_KEY_DOWN : Int := 264
def GLFW_KEY_UP : Int := 265

/-! ## The harness -/

/-- Enum `Mode` (main.cpp:112). -/
inductive Mode
  | RECORDING
  | PLAYBACK
deriving DecidableEq, Repr

/-- How a call can fail to return a world. The source defines no error of its own: the
only fault of the code is `UndefinedBehaviour`, an unchecked `operator[]` at or past the
size of a vector. `StreamExhausted` and `ModeViolation` are the error kinds named by the
specification (§7), which no function of the source produces. `OutOfFuel` is the loop
bound of the model running out. -/
inductive Fault
  | UndefinedBehaviour
  | StreamExhausted
  | ModeViolation
  | OutOfFuel
deriving DecidableEq, Repr

/-- Struct `GLFWPlayback` (main.cpp:114-160), its data members. -/
structure GLFWPlayback where
  mode : Mode
  glfwPollEvents_produced_function_call_history : List (Option KeyCallbackArgs)
  glfwPollEvents_produced_function_call_history_playback_idx : Nat
  key_callback_call_history : List KeyCallbackArgs
  poll_events_call_number : Nat
  glfw_window_should_close_values : List Bool
  playback_idx : Nat
deriving DecidableEq, Repr

/-- Default constructor `GLFWPlayback()` (main.cpp:116-124, 146-147). -/
def GLFWPlayback.init : GLFWPlayback :=
  ⟨Mode.RECORDING, [], 0, [], 0, [], 0⟩

/-- Struct `FixedFrequencyLoopPlaybackSystem` (main.cpp:162-164), its data member. -/
structure FixedFrequencyLoopPlaybackSystem (D : Type) where
  dt_history : List D
deriving DecidableEq, Repr

/-- One structured line of `std::cout`. -/
inductive Line (F D : Type)
  | user_key (key action mods : Int)
  | doing_poll_events
  | loop_index (i size : Nat)
  | state_before (tick : Nat) (position : Vec3 F)
  | update_data (tick : Nat) (data : StateUpdateData D) (delta_pos : Vec3 F)
  | state_after (tick : Nat) (position : Vec3 F)

/-- Modelled from the spec: the windowing library (GLFW, an external library), §6. The n-th
real poll delivers the key events `key_events n` to the registered listener (the specification
assumes 0 or 1 of them, the model allows any number), the n-th real close query answers
`should_close n`; the two counters count the real calls made so far. -/
structure GLFW where
  key_events : Nat → List KeyCallbackArgs
  should_close : Nat → Int
  poll_events_calls : Nat
  should_close_calls : Nat

/-- The globals of main.cpp (lines 70, 71, 81) and the locals of `main` (lines 202-211)
captured by reference by the lambdas `tick` and `term`, with the windowing library and
the output written so far. -/
structure World (F D : Type) where
  state : State F
  state_update_data : StateUpdateData D
  glfwPollEvents_produced_function_call : Option KeyCallbackArgs
  max_ticks : Int
  recording_done : Bool
  fflps : FixedFrequencyLoopPlaybackSystem D
  glfw_playback : GLFWPlayback
  current_tick : Nat
  mode : Mode
  glfw : GLFW
  cout : List (Line F D)

section Wrappers

variable {F D : Type}

/-- Statement `std::cout << ... << "\n"`: one more line of output. -/
def World.print (w : World F D) (l : Line F D) : World F D :=
  { w with cout := w.cout ++ [l] }

/-- Function `user_key_callback` (main.cpp:82-110); the window argument is not used. -/
def user_key_callback (key scancode action mods : Int) (w : World F D) : World F D :=
  let w := w.print (Line.user_key key action mods)
  let w := { w with
    glfwPollEvents_produced_function_call := some ⟨key, scancode, action, mods⟩ }
  let pressed : Bool := action == GLFW_PRESS || action == GLFW_REPEAT
  if key = GLFW_KEY_W ∨ key = GLFW_KEY_UP then
    { w with state_update_data := { w.state_update_data with up_pressed := pressed } }
  else if key = GLFW_KEY_S ∨ key = GLFW_KEY_DOWN then
    { w with state_update_data := { w.state_update_data with down_pressed := pressed } }
  else if key = GLFW_KEY_A ∨ key = GLFW_KEY_LEFT then
    { w with state_update_data := { w.state_update_data with left_pressed := pressed } }
  else if key = GLFW_KEY_D ∨ key = GLFW_KEY_RIGHT then
    { w with state_update_data := { w.state_update_data with right_pressed := pressed } }
  else
    w

/-- Modelled from the spec: the real `glfwPollEvents` of the windowing library (an external
library), §6: it invokes the listener registered at main.cpp:199, `user_key_callback`,
synchronously for each key event this poll delivers, in order, and returns nothing. -/
def glfwPollEvents (w : World F D) : World F D :=
  let events := w.glfw.key_events w.glfw.poll_events_calls
  let w := { w with glfw := { w.glfw with poll_events_calls := w.glfw.poll_events_calls + 1 } }
  events.foldl (fun w e => user_key_callback e.key e.scancode e.action e.mods w) w

/-- Modelled from the spec: the real `glfwWindowShouldClose` of the windowing library (an
external library), §6: it answers the close flag (an `int`) and changes nothing of the program. -/
def glfwWindowShouldClose (w : World F D) : Int × World F D :=
  (w.glfw.should_close w.glfw.should_close_calls,
   { w with glfw := { w.glfw with should_close_calls := w.glfw.should_close_calls + 1 } })

/-- Method `GLFWPlayback::glfwPollEvents_` (main.cpp:127-142). A cursor below the size of a
vector cannot wrap, so the `size_t` increment is `+ 1`. -/
def GLFWPlayback.glfwPollEvents_ (w : World F D) : Except Fault (World F D) :=
  if w.glfw_playback.mode = Mode.RECORDING then
    let w := w.print Line.doing_poll_events
    let w := glfwPollEvents w
    let w := { w with glfw_playback := { w.glfw_playback with
      glfwPollEvents_produced_function_call_history :=
        w.glfw_playback.glfwPollEvents_produced_function_call_history ++
          [w.glfwPollEvents_produced_function_call] } }
    let w := { w with glfwPollEvents_produced_function_call := none }
    Except.ok w
  else if w.glfw_playback.mode = Mode.PLAYBACK then
    match w.glfw_playback.glfwPollEvents_produced_function_call_history[
        w.glfw_playback.glfwPollEvents_produced_function_call_history_playback_idx]? with
    | none => Except.error Fault.UndefinedBehaviour
    | some args =>
      let w := match args with
        | some a => user_key_callback a.key a.scancode a.action a.mods w
        | none => w
      Except.ok { w with glfw_playback := { w.glfw_playback with
        glfwPollEvents_produced_function_call_history_playback_idx :=
          w.glfw_playback.glfwPollEvents_produced_function_call_history_playback_idx + 1 } }
  else
    Except.ok w

/-- Method `GLFWPlayback::glfwWindowShouldClose_` (main.cpp:148-159). The `int` answer of
the real query is converted to `bool` (non-zero is true) both by `push_back` and by
`return`. -/
def GLFWPlayback.glfwWindowShouldClose_ (w : World F D) : Except Fault (Bool × World F D) :=
  if w.glfw_playback.mode = Mode.RECORDING then
    let (should_close, w) := glfwWindowShouldClose w
    let w := { w with glfw_playback := { w.glfw_playback with
      glfw_window_should_close_values :=
        w.glfw_playback.glfw_window_should_close_values ++ [decide (should_close ≠ 0)] } }
    Except.ok (decide (should_close ≠ 0), w)
  else if w.glfw_playback.mode = Mode.PLAYBACK then
    match w.glfw_playback.glfw_window_should_close_values[w.glfw_playback.playback_idx]? with
    | none => Except.error Fault.UndefinedBehaviour
    | some should_close =>
      let w := { w with glfw_playback := { w.glfw_playback with
        playback_idx := w.glfw_playback.playback_idx + 1 } }
      Except.ok (should_close, w)
  else
    Except.ok (false, w)

/-- The loop of `FixedFrequencyLoopPlaybackSystem::start` (main.cpp:169-175), entered with
loop variable `i`. The first argument bounds the number of iterations of the model. The
source declares `i` as `int` and compares it with `dt_history.size()`; it is incremented
only while below that size, so it is a natural number here, which is exact for every
`dt_history` of fewer than 2^31 entries. -/
def FixedFrequencyLoopPlaybackSystem.start_loop
    (rate_limited_func : D → World F D → Except Fault (World F D)) :
    Nat → Nat → World F D → Except Fault (World F D)
  | 0, _, _ => Except.error Fault.OutOfFuel
  | fuel + 1, i, w =>
    if i < w.fflps.dt_history.length then
      let w := w.print (Line.loop_index i w.fflps.dt_history.length)
      match w.fflps.dt_history[i]? with
      | none => Except.error Fault.UndefinedBehaviour
      | some dt =>
        match rate_limited_func dt w with
        | Except.error e => Except.error e
        | Except.ok w => FixedFrequencyLoopPlaybackSystem.start_loop rate_limited_func fuel (i + 1) w
    else
      Except.ok w

/-- Method `FixedFrequencyLoopPlaybackSystem::start` (main.cpp:166-176). The parameter
`termination_condition_func` is not used by the body. -/
def FixedFrequencyLoopPlaybackSystem.start
    (rate_limited_func : D → World F D → Except Fault (World F D))
    (_termination_condition_func : World F D → Except Fault (Bool × World F D))
    (fuel : Nat) (w : World F D) : Except Fault (World F D) :=
  FixedFrequencyLoopPlaybackSystem.start_loop rate_limited_func fuel 0 w

end Wrappers

section Program

variable {F D : Type} [Zero F] [One F] [Add F] [Sub F] [Mul F] [FloatCast D F]

/-- Lambda `tick` of `main` (main.cpp:213-237). The OpenGL calls (`glViewport`, `glClear`,
`glfwSwapBuffers`) touch no variable of the program and are left out. `current_tick` is a
`size_t`. -/
def tick (dt : D) (w : World F D) : Except Fault (World F D) :=
  match GLFWPlayback.glfwPollEvents_ w with
  | Except.error e => Except.error e
  | Except.ok w =>
    let w := if w.mode = Mode.RECORDING then
        { w with fflps := { w.fflps with dt_history := w.fflps.dt_history ++ [dt] } }
      else w
    let w := { w with state_update_data := { w.state_update_data with dt := dt } }
    let w := w.print (Line.state_before w.current_tick w.state.position)
    let w := w.print
      (Line.update_data w.current_tick w.state_update_data w.state_update_data.get_delta_pos)
    let w := { w with state := { w.state with
      position := w.state.position.add_assign w.state_update_data.get_delta_pos } }
    let w := w.print (Line.state_after w.current_tick w.state.position)
    let w := { w with recording_done := decide (w.current_tick = 300) }
    Except.ok { w with current_tick := (w.current_tick + 1) % 2 ^ 64 }

/-- Lambda `term` of `main` (main.cpp:238). -/
def term (w : World F D) : Except Fault (Bool × World F D) :=
  match GLFWPlayback.glfwWindowShouldClose_ w with
  | Except.error e => Except.error e
  | Except.ok (should_close, w) => Except.ok (should_close || w.recording_done, w)

/-- The program state when `main` reaches `ffl.start` (main.cpp:70-71, 81, 202-211), given
the windowing library. -/
def World.init [Zero D] (glfw : GLFW) : World F D :=
  { state := State.init
    state_update_data := StateUpdateData.init
    glfwPollEvents_produced_function_call := none
    max_ticks := 200
    recording_done := false
    fflps := ⟨[]⟩
    glfw_playback := GLFWPlayback.init
    current_tick := 0
    mode := Mode.RECORDING
    glfw := glfw
    cout := [] }

/-- The statements of `main` between the two drivers (main.cpp:241-247): reset the
simulation state, then switch both mode flags to PLAYBACK. -/
def reset_and_switch [Zero D] (w : World F D) : World F D :=
  let w := { w with current_tick := 0 }
  let w := { w with state := State.init }
  let w := { w with state_update_data := StateUpdateData.init }
  let w := { w with mode := Mode.PLAYBACK }
  { w with glfw_playback := { w.glfw_playback with mode := Mode.PLAYBACK } }

/-- One call a live driver makes on its two callbacks. -/
inductive Call (D : Type)
  | tick (dt : D)
  | term

/-- A live run: the calls a live driver (`FixedFrequencyLoop`, whose source is not in
main.cpp) makes on the callbacks `tick` and `term`, in order. The driver touches the
program state through these two callbacks only; what it does with the answer of `term` is
its own business. -/
def live_run : List (Call D) → World F D → Except Fault (World F D)
  | [], w => Except.ok w
  | Call.tick dt :: rest, w =>
    match tick dt w with
    | Except.error e => Except.error e
    | Except.ok w => live_run rest w
  | Call.term :: rest, w =>
    match term w with
    | Except.error e => Except.error e
    | Except.ok (_, w) => live_run rest w

/-- Modelled from the spec: `FixedFrequencyLoop::start` (declared in
utility/fixed_frequency_loop/fixed_frequency_loop.hpp, whose source is missing), §4.5:
measure the elapsed time, invoke `tick(dt)`, then evaluate `should_stop()` and stop when
it is true. The duration is appended to `dt_history` by the
`tick` lambda itself (main.cpp:219-221), so the driver does not append it again.
`wall_clock_elapsed n` is the duration measured in iteration `n`; the first argument
bounds the number of iterations of the model. -/
def FixedFrequencyLoop.start (wall_clock_elapsed : Nat → D)
    (rate_limited_func : D → World F D → Except Fault (World F D))
    (termination_condition_func : World F D → Except Fault (Bool × World F D)) :
    Nat → Nat → World F D → Except Fault (World F D)
  | 0, _, _ => Except.error Fault.OutOfFuel
  | fuel + 1, n, w =>
    match rate_limited_func (wall_clock_elapsed n) w with
    | Except.error e => Except.error e
    | Except.ok w =>
      match termination_condition_func w with
      | Except.error e => Except.error e
      | Except.ok (stop, w) =>
        if stop then Except.ok w
        else FixedFrequencyLoop.start wall_clock_elapsed rate_limited_func
          termination_condition_func fuel (n + 1) w

/-- The positions the `tick` lambda printed after its update (main.cpp:229-230), with the
tick number printed next to each, in order. -/
def positions_after : List (Line F D) → List (Nat × Vec3 F)
  | [] => []
  | Line.state_after n p :: rest => (n, p) :: positions_after rest
  | _ :: rest => positions_after rest

/-! ## Auxiliary definitions of the verification -/

/-- Effect of the switch of user_key_callback on the key booleans. -/
def press_key (key action : Int) (s : StateUpdateData D) : StateUpdateData D :=
  let pressed : Bool := action == GLFW_PRESS || action == GLFW_REPEAT
  if key = GLFW_KEY_W ∨ key = GLFW_KEY_UP then { s with up_pressed := pressed }
  else if key = GLFW_KEY_S ∨ key = GLFW_KEY_DOWN then { s with down_pressed := pressed }
  else if key = GLFW_KEY_A ∨ key = GLFW_KEY_LEFT then { s with left_pressed := pressed }
  else if key = GLFW_KEY_D ∨ key = GLFW_KEY_RIGHT then { s with right_pressed := pressed }
  else s

/-- The part of the program state the simulation reads and writes: the key booleans with
the last duration, the position and the tick counter. -/
structure Core (F D : Type) where
  state_update_data : StateUpdateData D
  position : Vec3 F
  current_tick : Nat

/-- The simulation part of a world. -/
def World.core (w : World F D) : Core F D :=
  ⟨w.state_update_data, w.state.position, w.current_tick⟩

/-- One tick seen from the simulation: the listener runs on the given key events, then the
duration is stored, the position moves and the counter advances. -/
def core_step (events : List KeyCallbackArgs) (dt : D) (c : Core F D) : Core F D :=
  let s : StateUpdateData D :=
    { events.foldl (fun s e => press_key e.key e.action s) c.state_update_data with dt := dt }
  ⟨s, c.position.add_assign s.get_delta_pos, (c.current_tick + 1) % 2 ^ 64⟩

/-- Several ticks seen from the simulation. -/
def core_run : List (List KeyCallbackArgs × D) → Core F D → Core F D
  | [], c => c
  | (es, dt) :: rest, c => core_run rest (core_step es dt c)

/-- The tick numbers and positions several ticks print after their update. -/
def core_trace : List (List KeyCallbackArgs × D) → Core F D → List (Nat × Vec3 F)
  | [], _ => []
  | (es, dt) :: rest, c =>
    (c.current_tick, (core_step es dt c).position) :: core_trace rest (core_step es dt c)

/-- The key events and duration of each tick of a live run whose first real poll is poll
number `n` of the windowing library. -/
def live_inputs (key_events : Nat → List KeyCallbackArgs) :
    Nat → List (Call D) → List (List KeyCallbackArgs × D)
  | _, [] => []
  | n, Call.tick dt :: rest => (key_events n, dt) :: live_inputs key_events (n + 1) rest
  | n, Call.term :: rest => live_inputs key_events n rest

/-- Number of ticks of a live run. -/
def ticks_of : List (Call D) → Nat
  | [] => 0
  | Call.tick _ :: rest => ticks_of rest + 1
  | Call.term :: rest => ticks_of rest

/-- Number of evaluations of `term` in a live run. -/
def terms_of : List (Call D) → Nat
  | [] => 0
  | Call.tick _ :: rest => terms_of rest
  | Call.term :: rest => terms_of rest + 1

/-- The values the close queries of a live run record, when its first real close query is
query number `n` of the windowing library. -/
def live_close_values (should_close : Nat → Int) : Nat → List (Call D) → List Bool
  | _, [] => []
  | n, Call.tick _ :: rest => live_close_values should_close n rest
  | n, Call.term :: rest =>
    decide (should_close n ≠ 0) :: live_close_values should_close (n + 1) rest

/-- The calls of `k` iterations of the live driver of §4.5, the first being iteration `n`:
`tick` with the measured duration, then `term`. -/
def driver_calls (wall_clock_elapsed : Nat → D) : Nat → Nat → List (Call D)
  | _, 0 => []
  | n, k + 1 =>
    Call.tick (wall_clock_elapsed n) :: Call.term :: driver_calls wall_clock_elapsed (n + 1) k

/-- The windowing library of the concrete scenario of §8: the second real poll delivers the
key UP pressed, the other polls nothing; the third close query answers true. -/
def scenario_glfw (scancode mods : Int) : GLFW :=
  { key_events := fun n => if n = 1 then [⟨GLFW_KEY_UP, scancode, GLFW_PRESS, mods⟩] else []
    should_close := fun n => if n = 2 then 1 else 0
    poll_events_calls := 0
    should_close_calls := 0 }

/-- The program state in which a playback run starts (main.cpp:241-247) when the live run
has recorded the given event slots, close values and durations. -/
def playback_start [Zero D] (glfw : GLFW) (slots : List (Option KeyCallbackArgs))
    (values : List Bool) (dts : List D) : World F D :=
  reset_and_switch
    { (World.init glfw : World F D) with
      glfw_playback := { GLFWPlayback.init with
        glfwPollEvents_produced_function_call_history := slots
        glfw_window_should_close_values := values }
      fflps := ⟨dts⟩ }

/-- The check of §4.2, which the code does not make, put in front of the lambda `tick`: a
tick entered while the two mode flags are not both `m` is a ModeViolation. -/
def tick_asserting (m : Mode) (dt : D) (w : World F D) : Except Fault (World F D) :=
  if w.mode = m ∧ w.glfw_playback.mode = m then tick dt w
  else Except.error Fault.ModeViolation

/-- The check of §4.2, which the code does not make, put in front of the lambda `term`. -/
def term_asserting (m : Mode) (w : World F D) : Except Fault (Bool × World F D) :=
  if w.mode = m ∧ w.glfw_playback.mode = m then term w
  else Except.error Fault.ModeViolation

/-- A live run in which every call of `tick` and `term` makes the check of §4.2 first. -/
def live_run_asserting (m : Mode) : List (Call D) → World F D → Except Fault (World F D)
  | [], w => Except.ok w
  | Call.tick dt :: rest, w =>
    match tick_asserting m dt w with
    | Except.error e => Except.error e
    | Except.ok w => live_run_asserting m rest w
  | Call.term :: rest, w =>
    match term_asserting m w with
    | Except.error e => Except.error e
    | Except.ok (_, w) => live_run_asserting m rest w

/-- What the loop of `FixedFrequencyLoopPlaybackSystem::start` amounts to when the callback
leaves `dt_history` alone: one call of the callback for each duration of the list, in
order, each preceded by the line the loop prints; `i` is the loop variable. -/
def calls_in_order (rate_limited_func : D → World F D → Except Fault (World F D)) :
    List D → Nat → World F D → Except Fault (World F D)
  | [], _, w => Except.ok w
  | dt :: rest, i, w =>
    match rate_limited_func dt (w.print (Line.loop_index i w.fflps.dt_history.length)) with
    | Except.error e => Except.error e
    | Except.ok w => calls_in_order rate_limited_func rest (i + 1) w

/-- Successive calls of `glfwWindowShouldClose_`, with the values they return. -/
def close_queries : Nat → World F D → Except Fault (List Bool × World F D)
  | 0, w => Except.ok ([], w)
  | k + 1, w =>
    match GLFWPlayback.glfwWindowShouldClose_ w with
    | Except.error e => Except.error e
    | Except.ok (b, w) =>
      match close_queries k w with
      | Except.error e => Except.error e
      | Except.ok (bs, w) => Except.ok (b :: bs, w)

end Program

/-- Exact arithmetic on the rationals, where `static_cast<float>` loses nothing. -/
instance : FloatCast ℚ ℚ := ⟨id⟩

/-! ## Concrete inputs -/

/-- The initial program state in the windowing library of the scenario, on the rationals. -/
def scenario_world : World ℚ ℚ := World.init (scenario_glfw 0 0)

/-- The live run of the scenario as calls of the driver: three iterations of `tick` with
`dt = 0.1` followed by `term`. -/
def scenario_calls : List (Call ℚ) := driver_calls (fun _ => 1 / 10) 0 3

/-- A playback start with two recorded durations and two empty event slots. -/
def two_ticks_world : World ℚ ℚ :=
  playback_start (scenario_glfw 0 0) [none, none] [] [1 / 10, 1 / 5]

/-- A playback start in which nothing was recorded: every cursor is at the end. -/
def exhausted_world : World ℚ ℚ := playback_start (scenario_glfw 0 0) [] [] []

/-- A playback start with one recorded event (the key UP pressed), one close value and one
duration. -/
def one_event_world : World ℚ ℚ :=
  playback_start (scenario_glfw 0 0) [some ⟨GLFW_KEY_UP, 0, GLFW_PRESS, 0⟩] [true] [1 / 10]

/-- Keys up and right pressed, with the duration 0.1. -/
def diagonal_keys : StateUpdateData ℚ := ⟨true, false, false, true, 1 / 10⟩

/-- The `tick` of `main` with its own mode flag held at PLAYBACK. -/
def playback_tick (dt : ℚ) (w : World ℚ ℚ) : Except Fault (World ℚ ℚ) :=
  tick dt { w with mode := Mode.PLAYBACK }

/-- A termination predicate that would stop at once. -/
def stop_at_once (w : World ℚ ℚ) : Except Fault (Bool × World ℚ ℚ) :=
  Except.ok (true, w)

/-- A playback start with one recorded event in which `recording_done` is true, as a
live run stopped by its cap leaves it: the reset of `main` does not clear it. -/
def recording_done_world : World ℚ ℚ := { one_event_world with recording_done := true }

/-- A windowing library whose window is never asked to close and that delivers no key
event. -/
def open_window_glfw : GLFW :=
  { key_events := fun _ => []
    should_close := fun _ => 0
    poll_events_calls := 0
    should_close_calls := 0 }

/-! ## Lemmas -/

section WrapperLemmas

variable {F D : Type}

theorem user_key_callback_eq (key scancode action mods : Int) (w : World F D) :
    user_key_callback key scancode action mods w =
      { w with
        cout := w.cout ++ [Line.user_key key action mods]
        glfwPollEvents_produced_function_call := some ⟨key, scancode, action, mods⟩
        state_update_data := press_key key action w.state_update_data } := by
  unfold user_key_callback press_key World.print
  simp only []
  split_ifs <;> rfl

theorem foldl_user_key_callback (es : List KeyCallbackArgs) (w : World F D) :
    es.foldl (fun w e => user_key_callback e.key e.scancode e.action e.mods w) w =
      { w with
        cout := w.cout ++ es.map (fun e => Line.user_key e.key e.action e.mods)
        glfwPollEvents_produced_function_call :=
          if es = [] then w.glfwPollEvents_produced_function_call else es.getLast?
        state_update_data :=
          es.foldl (fun s e => press_key e.key e.action s) w.state_update_data } := by
  induction es generalizing w with
  | nil => simp
  | cons e es ih =>
    rw [List.foldl_cons, ih, user_key_callback_eq]
    cases es with
    | nil => simp
    | cons e2 es => simp [List.getLast?_cons_cons]

theorem glfwPollEvents_recording_eq (w : World F D)
    (hmode : w.glfw_playback.mode = Mode.RECORDING) :
    GLFWPlayback.glfwPollEvents_ w = Except.ok
      { w with
        cout := w.cout ++ Line.doing_poll_events ::
          (w.glfw.key_events w.glfw.poll_events_calls).map
            (fun e => Line.user_key e.key e.action e.mods)
        glfwPollEvents_produced_function_call := none
        state_update_data :=
          (w.glfw.key_events w.glfw.poll_events_calls).foldl
            (fun s e => press_key e.key e.action s) w.state_update_data
        glfw := { w.glfw with poll_events_calls := w.glfw.poll_events_calls + 1 }
        glfw_playback := { w.glfw_playback with
          glfwPollEvents_produced_function_call_history :=
            w.glfw_playback.glfwPollEvents_produced_function_call_history ++
              [if w.glfw.key_events w.glfw.poll_events_calls = [] then
                w.glfwPollEvents_produced_function_call
              else (w.glfw.key_events w.glfw.poll_events_calls).getLast?] } } := by
  unfold GLFWPlayback.glfwPollEvents_ glfwPollEvents
  simp [hmode, foldl_user_key_callback, World.print]

theorem glfwPollEvents_playback_eq (w : World F D)
    (hmode : w.glfw_playback.mode = Mode.PLAYBACK) (slot : Option KeyCallbackArgs)
    (hslot : w.glfw_playback.glfwPollEvents_produced_function_call_history[
      w.glfw_playback.glfwPollEvents_produced_function_call_history_playback_idx]? = some slot) :
    GLFWPlayback.glfwPollEvents_ w = Except.ok
      { w with
        cout := w.cout ++ slot.toList.map (fun e => Line.user_key e.key e.action e.mods)
        glfwPollEvents_produced_function_call :=
          if slot = none then w.glfwPollEvents_produced_function_call else slot
        state_update_data :=
          slot.toList.foldl (fun s e => press_key e.key e.action s) w.state_update_data
        glfw_playback := { w.glfw_playback with
          glfwPollEvents_produced_function_call_history_playback_idx :=
            w.glfw_playback.glfwPollEvents_produced_function_call_history_playback_idx + 1 } } := by
  unfold GLFWPlayback.glfwPollEvents_
  rw [hslot]
  cases slot with
  | none => simp [hmode]
  | some e => simp [hmode, user_key_callback_eq]

theorem glfwPollEvents_playback_fault (w : World F D)
    (hmode : w.glfw_playback.mode = Mode.PLAYBACK)
    (hidx : w.glfw_playback.glfwPollEvents_produced_function_call_history.length ≤
      w.glfw_playback.glfwPollEvents_produced_function_call_history_playback_idx) :
    GLFWPlayback.glfwPollEvents_ w = Except.error Fault.UndefinedBehaviour := by
  unfold GLFWPlayback.glfwPollEvents_
  rw [List.getElem?_eq_none hidx]
  simp [hmode]

theorem drop_eq_cons {α : Type} {l : List α} {i : Nat} {a : α} {as : List α}
    (h : l.drop i = a :: as) : l[i]? = some a ∧ l.drop (i + 1) = as ∧ i < l.length := by
  induction l generalizing i with
  | nil => simp at h
  | cons b l ih =>
    cases i with
    | zero =>
      simp at h
      simp [h.1, h.2]
    | succ i =>
      simp at h
      have := ih h
      refine ⟨?_, ?_, ?_⟩
      · simpa using this.1
      · simpa using this.2.1
      · simpa using this.2.2

theorem glfwWindowShouldClose_recording_eq (w : World F D)
    (hmode : w.glfw_playback.mode = Mode.RECORDING) :
    GLFWPlayback.glfwWindowShouldClose_ w = Except.ok
      (decide (w.glfw.should_close w.glfw.should_close_calls ≠ 0),
       { w with
         glfw := { w.glfw with should_close_calls := w.glfw.should_close_calls + 1 }
         glfw_playback := { w.glfw_playback with
           glfw_window_should_close_values :=
             w.glfw_playback.glfw_window_should_close_values ++
               [decide (w.glfw.should_close w.glfw.should_close_calls ≠ 0)] } }) := by
  unfold GLFWPlayback.glfwWindowShouldClose_ glfwWindowShouldClose
  simp [hmode]

theorem glfwWindowShouldClose_playback_eq (w : World F D)
    (hmode : w.glfw_playback.mode = Mode.PLAYBACK) (b : Bool)
    (hb : w.glfw_playback.glfw_window_should_close_values[w.glfw_playback.playback_idx]? =
      some b) :
    GLFWPlayback.glfwWindowShouldClose_ w = Except.ok
      (b, { w with glfw_playback := { w.glfw_playback with
        playback_idx := w.glfw_playback.playback_idx + 1 } }) := by
  unfold GLFWPlayback.glfwWindowShouldClose_
  simp [hmode, hb]

theorem glfwWindowShouldClose_playback_fault (w : World F D)
    (hmode : w.glfw_playback.mode = Mode.PLAYBACK)
    (hidx : w.glfw_playback.glfw_window_should_close_values.length ≤
      w.glfw_playback.playback_idx) :
    GLFWPlayback.glfwWindowShouldClose_ w = Except.error Fault.UndefinedBehaviour := by
  unfold GLFWPlayback.glfwWindowShouldClose_
  rw [List.getElem?_eq_none hidx]
  simp [hmode]

theorem term_recording_eq (w : World F D) (hmode : w.glfw_playback.mode = Mode.RECORDING) :
    term w = Except.ok
      (decide (w.glfw.should_close w.glfw.should_close_calls ≠ 0) || w.recording_done,
       { w with
         glfw := { w.glfw with should_close_calls := w.glfw.should_close_calls + 1 }
         glfw_playback := { w.glfw_playback with
           glfw_window_should_close_values :=
             w.glfw_playback.glfw_window_should_close_values ++
               [decide (w.glfw.should_close w.glfw.should_close_calls ≠ 0)] } }) := by
  unfold term
  rw [glfwWindowShouldClose_recording_eq w hmode]

theorem positions_after_append (a b : List (Line F D)) :
    positions_after (a ++ b) = positions_after a ++ positions_after b := by
  induction a with
  | nil => simp [positions_after]
  | cons l a ih => cases l <;> simp [positions_after, ih]

theorem positions_after_map_user_key (es : List KeyCallbackArgs) :
    positions_after (es.map (fun e => (Line.user_key e.key e.action e.mods : Line F D))) = [] := by
  induction es with
  | nil => simp [positions_after]
  | cons e es ih => simp [positions_after, ih]

/-- One evaluation of `term` in a live run, field by field. -/
theorem term_recording_spec (w : World F D) (hmode2 : w.glfw_playback.mode = Mode.RECORDING) :
    ∃ (b : Bool) (w' : World F D), term w = Except.ok (b, w') ∧
      b = (decide (w.glfw.should_close w.glfw.should_close_calls ≠ 0) || w.recording_done) ∧
      w'.mode = w.mode ∧ w'.glfw_playback.mode = Mode.RECORDING ∧
      w'.glfwPollEvents_produced_function_call = w.glfwPollEvents_produced_function_call ∧
      w'.glfw.key_events = w.glfw.key_events ∧
      w'.glfw.poll_events_calls = w.glfw.poll_events_calls ∧
      w'.glfw_playback.glfwPollEvents_produced_function_call_history =
        w.glfw_playback.glfwPollEvents_produced_function_call_history ∧
      w'.fflps.dt_history = w.fflps.dt_history ∧
      w'.core = w.core ∧
      w'.cout = w.cout ∧
      w'.glfw_playback.glfwPollEvents_produced_function_call_history_playback_idx =
        w.glfw_playback.glfwPollEvents_produced_function_call_history_playback_idx ∧
      w'.glfw_playback.playback_idx = w.glfw_playback.playback_idx ∧
      w'.glfw_playback.glfw_window_should_close_values =
        w.glfw_playback.glfw_window_should_close_values ++
          [decide (w.glfw.should_close w.glfw.should_close_calls ≠ 0)] ∧
      w'.glfw.should_close = w.glfw.should_close ∧
      w'.glfw.should_close_calls = w.glfw.should_close_calls + 1 ∧
      w'.recording_done = w.recording_done := by
  refine ⟨_, _, term_recording_eq w hmode2, ?_⟩
  simp [hmode2, World.core]

theorem getLast?_toList_of_length_le_one {α : Type} (l : List α) (h : l.length ≤ 1) :
    l.getLast?.toList = l := by
  match l, h with
  | [], _ => rfl
  | [a], _ => rfl
  | _ :: _ :: _, h => simp at h

theorem zip_slots_durations (inputs : List (List KeyCallbackArgs × D))
    (h : ∀ p ∈ inputs, p.1.length ≤ 1) :
    (((inputs.map (fun p => p.1.getLast?)).map Option.toList).zip (inputs.map (fun p => p.2)))
      = inputs := by
  induction inputs with
  | nil => rfl
  | cons p inputs ih =>
    have h1 := getLast?_toList_of_length_le_one p.1 (h p (List.mem_cons_self _ _))
    have h2 := ih (fun q hq => h q (List.mem_cons_of_mem _ hq))
    simp only [List.map_cons, List.zip_cons_cons, h1, h2]

theorem live_inputs_mem (key_events : Nat → List KeyCallbackArgs) (calls : List (Call D)) :
    ∀ (n : Nat) (p : List KeyCallbackArgs × D), p ∈ live_inputs key_events n calls →
      ∃ m, n ≤ m ∧ m < n + ticks_of calls ∧ p.1 = key_events m := by
  induction calls with
  | nil => intro n p hp; simp [live_inputs] at hp
  | cons c calls ih =>
    intro n p hp
    cases c with
    | tick dt =>
      simp only [live_inputs, List.mem_cons] at hp
      rcases hp with rfl | hp
      · exact ⟨n, Nat.le_refl n, by simp only [ticks_of]; omega, rfl⟩
      · obtain ⟨m, h1, h2, h3⟩ := ih _ p hp
        exact ⟨m, by omega, by simp only [ticks_of]; omega, h3⟩
    | term =>
      obtain ⟨m, h1, h2, h3⟩ := ih n p hp
      exact ⟨m, h1, by simpa only [ticks_of] using h2, h3⟩

theorem live_inputs_length (key_events : Nat → List KeyCallbackArgs) (calls : List (Call D)) :
    ∀ n : Nat, (live_inputs key_events n calls).length = ticks_of calls := by
  induction calls with
  | nil => intro n; rfl
  | cons c calls ih =>
    intro n
    cases c with
    | tick dt => simp [live_inputs, ticks_of, ih]
    | term => simp [live_inputs, ticks_of, ih]

theorem start_loop_eq_calls_in_order
    (rate_limited_func : D → World F D → Except Fault (World F D))
    (hkeep : ∀ (dt : D) (w w' : World F D), rate_limited_func dt w = Except.ok w' →
      w'.fflps.dt_history = w.fflps.dt_history)
    (ds : List D) :
    ∀ (extra i : Nat) (w : World F D), w.fflps.dt_history.drop i = ds →
      FixedFrequencyLoopPlaybackSystem.start_loop rate_limited_func (ds.length + extra + 1) i w =
        calls_in_order rate_limited_func ds i w := by
  induction ds with
  | nil =>
    intro extra i w hd
    have hi : ¬ i < w.fflps.dt_history.length := by
      have := List.drop_eq_nil_iff.mp hd
      omega
    simp [FixedFrequencyLoopPlaybackSystem.start_loop, calls_in_order, hi]
  | cons d ds ih =>
    intro extra i w hd
    obtain ⟨hdi, hdrest, hilt⟩ := drop_eq_cons hd
    have hdi' : (w.print (Line.loop_index i w.fflps.dt_history.length)).fflps.dt_history[i]?
        = some d := hdi
    have hfuel : (d :: ds).length + extra + 1 = (ds.length + extra + 1) + 1 := by
      simp only [List.length_cons]; omega
    rw [hfuel, FixedFrequencyLoopPlaybackSystem.start_loop, calls_in_order]
    simp only [hilt, if_true, hdi']
    cases hf : rate_limited_func d (w.print (Line.loop_index i w.fflps.dt_history.length)) with
    | error e => rfl
    | ok w1 =>
      have hk := hkeep _ _ _ hf
      exact ih extra (i + 1) w1 (by rw [hk]; exact hdrest)

/-- What `glfwPollEvents_` leaves alone, in either mode. -/
theorem glfwPollEvents_frame (w w1 : World F D)
    (h : GLFWPlayback.glfwPollEvents_ w = Except.ok w1) :
    w1.mode = w.mode ∧ w1.glfw_playback.mode = w.glfw_playback.mode ∧
      w1.state = w.state ∧ w1.fflps = w.fflps ∧ w1.current_tick = w.current_tick ∧
      w1.recording_done = w.recording_done ∧ w1.max_ticks = w.max_ticks ∧
      w1.glfw_playback.glfw_window_should_close_values =
        w.glfw_playback.glfw_window_should_close_values ∧
      w1.glfw_playback.playback_idx = w.glfw_playback.playback_idx ∧
      w1.glfw.should_close_calls = w.glfw.should_close_calls ∧
      w1.state_update_data.dt = w.state_update_data.dt := by
  have hdt : ∀ (es : List KeyCallbackArgs) (s : StateUpdateData D),
      (es.foldl (fun s e => press_key e.key e.action s) s).dt = s.dt := by
    intro es
    induction es with
    | nil => intro s; rfl
    | cons e es ih =>
      intro s
      rw [List.foldl_cons, ih]
      unfold press_key
      simp only []
      split_ifs <;> rfl
  cases hm : w.glfw_playback.mode with
  | RECORDING =>
    rw [glfwPollEvents_recording_eq w hm] at h
    cases h
    simp [hm, hdt]
  | PLAYBACK =>
    cases hs : w.glfw_playback.glfwPollEvents_produced_function_call_history[
      w.glfw_playback.glfwPollEvents_produced_function_call_history_playback_idx]? with
    | none =>
      unfold GLFWPlayback.glfwPollEvents_ at h
      simp [hm, hs] at h
    | some slot =>
      rw [glfwPollEvents_playback_eq w hm slot hs] at h
      cases h
      simp [hm, hdt]

/-- Successive close queries in RECORDING mode append the values they return. -/
theorem close_queries_recording (k : Nat) :
    ∀ w : World F D, w.glfw_playback.mode = Mode.RECORDING →
      ∃ (bs : List Bool) (w1 : World F D), close_queries k w = Except.ok (bs, w1) ∧
        bs.length = k ∧
        w1.glfw_playback.glfw_window_should_close_values =
          w.glfw_playback.glfw_window_should_close_values ++ bs ∧
        w1.glfw_playback.playback_idx = w.glfw_playback.playback_idx ∧
        w1.glfw.should_close_calls = w.glfw.should_close_calls + k := by
  induction k with
  | zero => intro w _; exact ⟨[], w, rfl, rfl, by simp, rfl, rfl⟩
  | succ k ih =>
    intro w hm
    have h1 := glfwWindowShouldClose_recording_eq w hm
    obtain ⟨bs, w1, h, hl, hv, hp, hc⟩ := ih _ (by simp [hm] :
      ({ w with
         glfw := { w.glfw with should_close_calls := w.glfw.should_close_calls + 1 }
         glfw_playback := { w.glfw_playback with
           glfw_window_should_close_values :=
             w.glfw_playback.glfw_window_should_close_values ++
               [decide (w.glfw.should_close w.glfw.should_close_calls ≠ 0)] } } :
        World F D).glfw_playback.mode = Mode.RECORDING)
    refine ⟨decide (w.glfw.should_close w.glfw.should_close_calls ≠ 0) :: bs, w1,
      ?_, by simp [hl], ?_, ?_, ?_⟩
    · simp only [close_queries, h1, h]
    · rw [hv]; simp
    · rw [hp]
    · rw [hc]; simp only []; omega

/-- Successive close queries in PLAYBACK mode return the recorded values that remain. -/
theorem close_queries_playback (bs : List Bool) :
    ∀ w : World F D, w.glfw_playback.mode = Mode.PLAYBACK →
      w.glfw_playback.glfw_window_should_close_values.drop w.glfw_playback.playback_idx = bs →
      ∃ w2 : World F D, close_queries bs.length w = Except.ok (bs, w2) ∧
        w2.glfw_playback.playback_idx = w.glfw_playback.playback_idx + bs.length ∧
        w2.glfw_playback.glfw_window_should_close_values =
          w.glfw_playback.glfw_window_should_close_values ∧
        w2.glfw = w.glfw := by
  induction bs with
  | nil => intro w _ _; exact ⟨w, rfl, rfl, rfl, rfl⟩
  | cons b bs ih =>
    intro w hm hd
    obtain ⟨hb, hrest, -⟩ := drop_eq_cons hd
    have h1 := glfwWindowShouldClose_playback_eq w hm b hb
    obtain ⟨w2, h, hp, hv, hg⟩ := ih
      ({ w with glfw_playback := { w.glfw_playback with
        playback_idx := w.glfw_playback.playback_idx + 1 } } : World F D) hm hrest
    refine ⟨w2, ?_, ?_, ?_, ?_⟩
    · simp only [List.length_cons, close_queries, h1, h]
    · rw [hp]; simp only [List.length_cons]; omega
    · rw [hv]
    · rw [hg]

theorem live_close_values_length (should_close : Nat → Int) (calls : List (Call D)) :
    ∀ n : Nat, (live_close_values should_close n calls).length = terms_of calls := by
  induction calls with
  | nil => intro n; rfl
  | cons c calls ih =>
    intro n
    cases c with
    | tick dt => simp [live_close_values, terms_of, ih]
    | term => simp [live_close_values, terms_of, ih]

/-- The key booleans the listener leaves, in terms of the switch alone. -/
theorem user_key_callback_state_update_data (key scancode action mods : Int) (w : World F D) :
    (user_key_callback key scancode action mods w).state_update_data =
      press_key key action w.state_update_data := by
  rw [user_key_callback_eq]

/-- What `glfwWindowShouldClose_` leaves alone, in either mode. -/
theorem glfwWindowShouldClose_frame (w w' : World F D) (b : Bool)
    (h : GLFWPlayback.glfwWindowShouldClose_ w = Except.ok (b, w')) :
    w'.mode = w.mode ∧ w'.glfw_playback.mode = w.glfw_playback.mode ∧
      w'.state = w.state ∧ w'.state_update_data = w.state_update_data ∧
      w'.fflps = w.fflps ∧ w'.current_tick = w.current_tick ∧
      w'.recording_done = w.recording_done ∧ w'.max_ticks = w.max_ticks ∧
      w'.cout = w.cout ∧
      w'.glfwPollEvents_produced_function_call = w.glfwPollEvents_produced_function_call ∧
      w'.glfw_playback.glfwPollEvents_produced_function_call_history =
        w.glfw_playback.glfwPollEvents_produced_function_call_history ∧
      w'.glfw_playback.glfwPollEvents_produced_function_call_history_playback_idx =
        w.glfw_playback.glfwPollEvents_produced_function_call_history_playback_idx := by
  cases hm : w.glfw_playback.mode with
  | RECORDING =>
    rw [glfwWindowShouldClose_recording_eq w hm] at h
    cases h
    simp [hm]
  | PLAYBACK =>
    cases hs : w.glfw_playback.glfw_window_should_close_values[
      w.glfw_playback.playback_idx]? with
    | none =>
      unfold GLFWPlayback.glfwWindowShouldClose_ at h
      simp [hm, hs] at h
    | some v =>
      rw [glfwWindowShouldClose_playback_eq w hm v hs] at h
      cases h
      simp [hm]

/-- The only fault of `glfwPollEvents_` is the unchecked read. -/
theorem glfwPollEvents_fault (w : World F D) (e : Fault)
    (h : GLFWPlayback.glfwPollEvents_ w = Except.error e) : e = Fault.UndefinedBehaviour := by
  cases hm : w.glfw_playback.mode with
  | RECORDING =>
    rw [glfwPollEvents_recording_eq w hm] at h
    cases h
  | PLAYBACK =>
    cases hs : w.glfw_playback.glfwPollEvents_produced_function_call_history[
      w.glfw_playback.glfwPollEvents_produced_function_call_history_playback_idx]? with
    | none =>
      unfold GLFWPlayback.glfwPollEvents_ at h
      simp [hm, hs] at h
      exact h.symm
    | some slot =>
      rw [glfwPollEvents_playback_eq w hm slot hs] at h
      cases h

theorem driver_calls_succ (wall_clock_elapsed : Nat → D) (k : Nat) :
    ∀ n : Nat, driver_calls wall_clock_elapsed n (k + 1) =
      driver_calls wall_clock_elapsed n k ++
        [Call.tick (wall_clock_elapsed (n + k)), Call.term] := by
  induction k with
  | zero => intro n; rfl
  | succ k ih =>
    intro n
    rw [driver_calls, ih (n + 1)]
    simp only [driver_calls, List.cons_append]
    have : n + 1 + k = n + (k + 1) := by omega
    rw [this]

theorem ticks_of_driver_calls (wall_clock_elapsed : Nat → D) (k : Nat) :
    ∀ n : Nat, ticks_of (driver_calls wall_clock_elapsed n k) = k := by
  induction k with
  | zero => intro n; rfl
  | succ k ih => intro n; simp [driver_calls, ticks_of, ih]

theorem terms_of_driver_calls (wall_clock_elapsed : Nat → D) (k : Nat) :
    ∀ n : Nat, terms_of (driver_calls wall_clock_elapsed n k) = k := by
  induction k with
  | zero => intro n; rfl
  | succ k ih => intro n; simp [driver_calls, terms_of, ih]

/-- What `term` leaves alone, in either mode. -/
theorem term_frame (w w' : World F D) (b : Bool) (h : term w = Except.ok (b, w')) :
    w'.mode = w.mode ∧ w'.glfw_playback.mode = w.glfw_playback.mode ∧
      w'.max_ticks = w.max_ticks ∧ w'.recording_done = w.recording_done ∧
      w'.fflps = w.fflps ∧ w'.current_tick = w.current_tick ∧ w'.state = w.state ∧
      w'.state_update_data = w.state_update_data := by
  unfold term at h
  cases hq : GLFWPlayback.glfwWindowShouldClose_ w with
  | error e => rw [hq] at h; cases h
  | ok r =>
    obtain ⟨c, w1⟩ := r
    rw [hq] at h
    obtain ⟨f1, f2, f3, f4, f5, f6, f7, f8, -⟩ := glfwWindowShouldClose_frame w w1 c hq
    simp only [Except.ok.injEq, Prod.mk.injEq] at h
    obtain ⟨-, rfl⟩ := h
    exact ⟨f1, f2, f8, f7, f5, f6, f3, f4⟩

end WrapperLemmas

section ProgramLemmas

variable {F D : Type} [Zero F] [One F] [Add F] [Sub F] [Mul F] [FloatCast D F]

theorem tick_recording_eq (dt : D) (w : World F D)
    (hmode : w.mode = Mode.RECORDING) (hmode2 : w.glfw_playback.mode = Mode.RECORDING) :
    tick dt w = Except.ok
      { w with
        cout := w.cout ++ Line.doing_poll_events ::
          ((w.glfw.key_events w.glfw.poll_events_calls).map
            (fun e => Line.user_key e.key e.action e.mods) ++
          [Line.state_before w.current_tick w.state.position,
           Line.update_data w.current_tick
            (core_step (w.glfw.key_events w.glfw.poll_events_calls) dt w.core).state_update_data
            (core_step (w.glfw.key_events w.glfw.poll_events_calls) dt
              w.core).state_update_data.get_delta_pos,
           Line.state_after w.current_tick
            (core_step (w.glfw.key_events w.glfw.poll_events_calls) dt w.core).position])
        glfwPollEvents_produced_function_call := none
        state_update_data :=
          (core_step (w.glfw.key_events w.glfw.poll_events_calls) dt w.core).state_update_data
        state := ⟨(core_step (w.glfw.key_events w.glfw.poll_events_calls) dt w.core).position⟩
        recording_done := decide (w.current_tick = 300)
        current_tick := (w.current_tick + 1) % 2 ^ 64
        fflps := ⟨w.fflps.dt_history ++ [dt]⟩
        glfw := { w.glfw with poll_events_calls := w.glfw.poll_events_calls + 1 }
        glfw_playback := { w.glfw_playback with
          glfwPollEvents_produced_function_call_history :=
            w.glfw_playback.glfwPollEvents_produced_function_call_history ++
              [if w.glfw.key_events w.glfw.poll_events_calls = [] then
                w.glfwPollEvents_produced_function_call
              else (w.glfw.key_events w.glfw.poll_events_calls).getLast?] } } := by
  unfold tick
  rw [glfwPollEvents_recording_eq w hmode2]
  simp [hmode, World.print, core_step, World.core]

theorem tick_playback_eq (dt : D) (w : World F D)
    (hmode : w.mode = Mode.PLAYBACK) (hmode2 : w.glfw_playback.mode = Mode.PLAYBACK)
    (slot : Option KeyCallbackArgs)
    (hslot : w.glfw_playback.glfwPollEvents_produced_function_call_history[
      w.glfw_playback.glfwPollEvents_produced_function_call_history_playback_idx]? = some slot) :
    tick dt w = Except.ok
      { w with
        cout := w.cout ++
          (slot.toList.map (fun e => Line.user_key e.key e.action e.mods) ++
          [Line.state_before w.current_tick w.state.position,
           Line.update_data w.current_tick
            (core_step slot.toList dt w.core).state_update_data
            (core_step slot.toList dt w.core).state_update_data.get_delta_pos,
           Line.state_after w.current_tick (core_step slot.toList dt w.core).position])
        glfwPollEvents_produced_function_call :=
          if slot = none then w.glfwPollEvents_produced_function_call else slot
        state_update_data := (core_step slot.toList dt w.core).state_update_data
        state := ⟨(core_step slot.toList dt w.core).position⟩
        recording_done := decide (w.current_tick = 300)
        current_tick := (w.current_tick + 1) % 2 ^ 64
        glfw_playback := { w.glfw_playback with
          glfwPollEvents_produced_function_call_history_playback_idx :=
            w.glfw_playback.glfwPollEvents_produced_function_call_history_playback_idx + 1 } } := by
  unfold tick
  rw [glfwPollEvents_playback_eq w hmode2 slot hslot]
  simp [hmode, World.print, core_step, World.core]

/-- One live tick entered with an empty scratch slot, field by field. -/
theorem tick_recording_spec (dt : D) (w : World F D)
    (hmode : w.mode = Mode.RECORDING) (hmode2 : w.glfw_playback.mode = Mode.RECORDING)
    (hscratch : w.glfwPollEvents_produced_function_call = none) :
    ∃ w' : World F D, tick dt w = Except.ok w' ∧
      w'.mode = Mode.RECORDING ∧ w'.glfw_playback.mode = Mode.RECORDING ∧
      w'.glfwPollEvents_produced_function_call = none ∧
      w'.glfw.key_events = w.glfw.key_events ∧
      w'.glfw.poll_events_calls = w.glfw.poll_events_calls + 1 ∧
      w'.glfw_playback.glfwPollEvents_produced_function_call_history =
        w.glfw_playback.glfwPollEvents_produced_function_call_history ++
          [(w.glfw.key_events w.glfw.poll_events_calls).getLast?] ∧
      w'.fflps.dt_history = w.fflps.dt_history ++ [dt] ∧
      w'.core = core_step (w.glfw.key_events w.glfw.poll_events_calls) dt w.core ∧
      positions_after w'.cout = positions_after w.cout ++
        [(w.current_tick,
          (core_step (w.glfw.key_events w.glfw.poll_events_calls) dt w.core).position)] ∧
      w'.glfw_playback.glfwPollEvents_produced_function_call_history_playback_idx =
        w.glfw_playback.glfwPollEvents_produced_function_call_history_playback_idx ∧
      w'.glfw_playback.playback_idx = w.glfw_playback.playback_idx ∧
      w'.glfw_playback.glfw_window_should_close_values =
        w.glfw_playback.glfw_window_should_close_values ∧
      w'.glfw.should_close = w.glfw.should_close ∧
      w'.glfw.should_close_calls = w.glfw.should_close_calls ∧
      w'.recording_done = decide (w.current_tick = 300) := by
  refine ⟨_, tick_recording_eq dt w hmode hmode2, ?_⟩
  simp [hmode, hmode2, hscratch, World.core, positions_after_append, positions_after,
    positions_after_map_user_key]
  refine ⟨?_, ?_⟩
  · intro h; simp [h]
  · simp [core_step]

/-- What a live run does, whatever number of events each real poll delivers. -/
theorem live_run_spec (calls : List (Call D)) (w : World F D)
    (hmode : w.mode = Mode.RECORDING) (hmode2 : w.glfw_playback.mode = Mode.RECORDING)
    (hscratch : w.glfwPollEvents_produced_function_call = none) :
    ∃ w' : World F D, live_run calls w = Except.ok w' ∧
      w'.mode = Mode.RECORDING ∧ w'.glfw_playback.mode = Mode.RECORDING ∧
      w'.glfwPollEvents_produced_function_call = none ∧
      w'.glfw.key_events = w.glfw.key_events ∧
      w'.glfw.poll_events_calls = w.glfw.poll_events_calls + ticks_of calls ∧
      w'.glfw_playback.glfwPollEvents_produced_function_call_history =
        w.glfw_playback.glfwPollEvents_produced_function_call_history ++
          (live_inputs w.glfw.key_events w.glfw.poll_events_calls calls).map
            (fun p => p.1.getLast?) ∧
      w'.fflps.dt_history = w.fflps.dt_history ++
        (live_inputs w.glfw.key_events w.glfw.poll_events_calls calls).map (fun p => p.2) ∧
      w'.core = core_run (live_inputs w.glfw.key_events w.glfw.poll_events_calls calls) w.core ∧
      positions_after w'.cout = positions_after w.cout ++
        core_trace (live_inputs w.glfw.key_events w.glfw.poll_events_calls calls) w.core ∧
      w'.glfw_playback.glfwPollEvents_produced_function_call_history_playback_idx =
        w.glfw_playback.glfwPollEvents_produced_function_call_history_playback_idx ∧
      w'.glfw_playback.playback_idx = w.glfw_playback.playback_idx := by
  induction calls generalizing w with
  | nil => exact ⟨w, by simp [live_run, ticks_of, live_inputs, core_run, core_trace, *]⟩
  | cons c calls ih =>
    cases c with
    | tick dt =>
      obtain ⟨w1, ht, t1, t2, t3, t4, t5, t6, t7, t8, t9, t10, t11, -⟩ :=
        tick_recording_spec dt w hmode hmode2 hscratch
      obtain ⟨w', h, h1, h2, h3, h4, h5, h6, h7, h8, h9, h10, h11⟩ := ih w1 t1 t2 t3
      refine ⟨w', ?_, h1, h2, h3, ?_, ?_, ?_, ?_, ?_, ?_, ?_, ?_⟩
      · simp only [live_run, ht]; exact h
      · rw [h4, t4]
      · rw [h5, t5]; simp only [ticks_of]; omega
      · rw [h6, t6, t4, t5]; simp [live_inputs]
      · rw [h7, t7, t4, t5]; simp [live_inputs]
      · rw [h8, t8, t4, t5]; simp [live_inputs, core_run]
      · rw [h9, t9, t8, t4, t5]; simp [live_inputs, core_trace, World.core]
      · rw [h10, t10]
      · rw [h11, t11]
    | term =>
      obtain ⟨b, w1, ht, -, t1, t2, t3, t4, t5, t6, t7, t8, t9, t10, t11, -⟩ :=
        term_recording_spec w hmode2
      obtain ⟨w', h, h1, h2, h3, h4, h5, h6, h7, h8, h9, h10, h11⟩ :=
        ih w1 (by rw [t1, hmode]) t2 (by rw [t3, hscratch])
      refine ⟨w', ?_, h1, h2, h3, ?_, ?_, ?_, ?_, ?_, ?_, ?_, ?_⟩
      · simp only [live_run, ht]; exact h
      · rw [h4, t4]
      · rw [h5, t5]; simp only [ticks_of]
      · rw [h6, t6, t4, t5]; simp [live_inputs]
      · rw [h7, t7, t4, t5]; simp [live_inputs]
      · rw [h8, t8, t4, t5]; simp [live_inputs]
      · rw [h9, t9, t8, t4, t5]; simp [live_inputs]
      · rw [h10, t10]
      · rw [h11, t11]

/-- What a live run records of the close queries. -/
theorem live_run_close_spec (calls : List (Call D)) :
    ∀ (w w' : World F D), w.mode = Mode.RECORDING → w.glfw_playback.mode = Mode.RECORDING →
      w.glfwPollEvents_produced_function_call = none → live_run calls w = Except.ok w' →
      w'.glfw.should_close = w.glfw.should_close ∧
      w'.glfw.should_close_calls = w.glfw.should_close_calls + terms_of calls ∧
      w'.glfw_playback.glfw_window_should_close_values =
        w.glfw_playback.glfw_window_should_close_values ++
          live_close_values w.glfw.should_close w.glfw.should_close_calls calls := by
  induction calls with
  | nil =>
    intro w w' _ _ _ h
    simp only [live_run] at h
    cases h
    simp [terms_of, live_close_values]
  | cons c calls ih =>
    intro w w' hmode hmode2 hscratch h
    cases c with
    | tick dt =>
      obtain ⟨w1, ht, t1, t2, t3, -, -, -, -, -, -, -, -, t12, t13, t14, -⟩ :=
        tick_recording_spec dt w hmode hmode2 hscratch
      simp only [live_run, ht] at h
      obtain ⟨h1, h2, h3⟩ := ih w1 w' t1 t2 t3 h
      refine ⟨?_, ?_, ?_⟩
      · rw [h1, t13]
      · rw [h2, t14]; simp only [terms_of]
      · rw [h3, t12, t13, t14]; simp only [live_close_values]
    | term =>
      obtain ⟨b, w1, ht, -, t1, t2, t3, -, -, -, -, -, -, -, -, t12, t13, t14, -⟩ :=
        term_recording_spec w hmode2
      simp only [live_run, ht] at h
      obtain ⟨h1, h2, h3⟩ := ih w1 w' (by rw [t1, hmode]) t2 (by rw [t3, hscratch]) h
      refine ⟨?_, ?_, ?_⟩
      · rw [h1, t13]
      · rw [h2, t14]; simp only [terms_of]; omega
      · rw [h3, t12, t13, t14]; simp [live_close_values]

/-- The live driver of §4.5 on the callbacks of `main`: when the close query answers false
and the tick counter is not 300 in the first `k` iterations, and one of those happens in
the next, the driver does `k + 1` iterations and stops. -/
theorem FixedFrequencyLoop_start_eq_live_run (wall_clock_elapsed : Nat → D) (k : Nat) :
    ∀ (extra n : Nat) (w : World F D), w.mode = Mode.RECORDING →
      w.glfw_playback.mode = Mode.RECORDING →
      w.glfwPollEvents_produced_function_call = none →
      w.current_tick + k + 1 < 2 ^ 64 →
      (∀ j : Nat, j < k → w.glfw.should_close (w.glfw.should_close_calls + j) = 0 ∧
        w.current_tick + j ≠ 300) →
      (w.glfw.should_close (w.glfw.should_close_calls + k) ≠ 0 ∨ w.current_tick + k = 300) →
      FixedFrequencyLoop.start wall_clock_elapsed tick term (k + extra + 1) n w =
        live_run (driver_calls wall_clock_elapsed n (k + 1)) w := by
  induction k with
  | zero =>
    intro extra n w hmode hmode2 hscratch hlt _ hstop
    obtain ⟨w1, ht, t1, t2, t3, -, -, -, -, -, -, -, -, -, t13, t14, t15⟩ :=
      tick_recording_spec (wall_clock_elapsed n) w hmode hmode2 hscratch
    obtain ⟨b, w2, hb, u0, -⟩ := term_recording_spec w1 t2
    have hbt : b = true := by
      rw [u0, t13, t14, t15]
      simp only [Nat.add_zero] at hstop
      rcases hstop with hs | hs
      · simp [hs]
      · simp [hs]
    subst hbt
    simp [FixedFrequencyLoop.start, driver_calls, live_run, ht, hb]
  | succ k ih =>
    intro extra n w hmode hmode2 hscratch hlt hgo hstop
    obtain ⟨w1, ht, t1, t2, t3, -, -, -, -, t8, -, -, -, -, t13, t14, t15⟩ :=
      tick_recording_spec (wall_clock_elapsed n) w hmode hmode2 hscratch
    obtain ⟨b, w2, hb, u0, u1, u2, u3, -, -, -, -, u8, -, -, -, -, u13, u14, -⟩ :=
      term_recording_spec w1 t2
    have h0 := hgo 0 (by omega)
    have hbf : b = false := by
      rw [u0, t13, t14, t15]
      simp only [Nat.add_zero] at h0
      simp [h0.1, h0.2]
    subst hbf
    have hct1 : w1.current_tick = w.current_tick + 1 := by
      have := congrArg Core.current_tick t8
      simp only [World.core, core_step] at this
      rw [this]
      exact Nat.mod_eq_of_lt (by omega)
    have hct : w2.current_tick = w.current_tick + 1 := by
      have := congrArg Core.current_tick u8
      simp only [World.core] at this
      rw [this, hct1]
    have hrec := ih extra (n + 1) w2 (by rw [u1, t1]) u2 (by rw [u3, t3]) (by rw [hct]; omega)
      (by
        intro j hj
        have := hgo (j + 1) (by omega)
        rw [u13, u14, t13, t14, hct]
        refine ⟨?_, ?_⟩
        · rw [← this.1]; congr 1; omega
        · intro hc; exact this.2 (by omega))
      (by
        rw [u13, u14, t13, t14, hct]
        rcases hstop with hs | hs
        · left; intro hc; apply hs; rw [← hc]; congr 1; omega
        · right; omega)
    have hfuel : k + 1 + extra + 1 = (k + extra + 1) + 1 := by omega
    rw [hfuel, FixedFrequencyLoop.start]
    simp only [driver_calls, live_run, ht, hb]
    simpa [driver_calls] using hrec

/-- The live driver of §4.5 on the callbacks of `main` has not stopped as long as the close
query answers false and the tick counter is not 300: a loop bound of that many iterations
runs out. -/
theorem FixedFrequencyLoop_start_out_of_fuel (wall_clock_elapsed : Nat → D) (fuel : Nat) :
    ∀ (n : Nat) (w : World F D), w.mode = Mode.RECORDING →
      w.glfw_playback.mode = Mode.RECORDING →
      w.glfwPollEvents_produced_function_call = none →
      w.current_tick + fuel < 2 ^ 64 →
      (∀ j : Nat, j < fuel → w.glfw.should_close (w.glfw.should_close_calls + j) = 0 ∧
        w.current_tick + j ≠ 300) →
      FixedFrequencyLoop.start wall_clock_elapsed tick term fuel n w =
        Except.error Fault.OutOfFuel := by
  induction fuel with
  | zero => intro n w _ _ _ _ _; rfl
  | succ fuel ih =>
    intro n w hmode hmode2 hscratch hlt hgo
    obtain ⟨w1, ht, t1, t2, t3, -, -, -, -, t8, -, -, -, -, t13, t14, t15⟩ :=
      tick_recording_spec (wall_clock_elapsed n) w hmode hmode2 hscratch
    obtain ⟨b, w2, hb, u0, u1, u2, u3, -, -, -, -, u8, -, -, -, -, u13, u14, -⟩ :=
      term_recording_spec w1 t2
    have h0 := hgo 0 (by omega)
    have hbf : b = false := by
      rw [u0, t13, t14, t15]
      simp only [Nat.add_zero] at h0
      simp [h0.1, h0.2]
    subst hbf
    have hct1 : w1.current_tick = w.current_tick + 1 := by
      have := congrArg Core.current_tick t8
      simp only [World.core, core_step] at this
      rw [this]
      exact Nat.mod_eq_of_lt (by omega)
    have hct : w2.current_tick = w.current_tick + 1 := by
      have := congrArg Core.current_tick u8
      simp only [World.core] at this
      rw [this, hct1]
    have hrec := ih (n + 1) w2 (by rw [u1, t1]) u2 (by rw [u3, t3]) (by rw [hct]; omega)
      (by
        intro j hj
        have := hgo (j + 1) (by omega)
        rw [u13, u14, t13, t14, hct]
        refine ⟨?_, ?_⟩
        · rw [← this.1]; congr 1; omega
        · intro hc; exact this.2 (by omega))
    rw [FixedFrequencyLoop.start]
    simp only [ht, hb]
    simpa using hrec

/-- One playback tick whose cursor is in range, field by field. -/
theorem tick_playback_spec (dt : D) (w : World F D)
    (hmode : w.mode = Mode.PLAYBACK) (hmode2 : w.glfw_playback.mode = Mode.PLAYBACK)
    (slot : Option KeyCallbackArgs)
    (hslot : w.glfw_playback.glfwPollEvents_produced_function_call_history[
      w.glfw_playback.glfwPollEvents_produced_function_call_history_playback_idx]? = some slot) :
    ∃ w' : World F D, tick dt w = Except.ok w' ∧
      w'.mode = Mode.PLAYBACK ∧ w'.glfw_playback.mode = Mode.PLAYBACK ∧
      w'.glfw = w.glfw ∧
      w'.glfw_playback.glfwPollEvents_produced_function_call_history =
        w.glfw_playback.glfwPollEvents_produced_function_call_history ∧
      w'.fflps.dt_history = w.fflps.dt_history ∧
      w'.glfw_playback.glfw_window_should_close_values =
        w.glfw_playback.glfw_window_should_close_values ∧
      w'.glfw_playback.glfwPollEvents_produced_function_call_history_playback_idx =
        w.glfw_playback.glfwPollEvents_produced_function_call_history_playback_idx + 1 ∧
      w'.glfw_playback.playback_idx = w.glfw_playback.playback_idx ∧
      w'.core = core_step slot.toList dt w.core ∧
      w'.recording_done = decide (w.current_tick = 300) ∧
      ∃ out : List (Line F D), w'.cout = w.cout ++ out ∧
        positions_after out = [(w.current_tick, (core_step slot.toList dt w.core).position)] := by
  refine ⟨_, tick_playback_eq dt w hmode hmode2 slot hslot, by simp [hmode], by simp [hmode2],
    rfl, rfl, rfl, rfl, rfl, rfl, ?_, rfl, ⟨_, rfl, ?_⟩⟩
  · simp [World.core, core_step]
  · simp [positions_after_append, positions_after, positions_after_map_user_key]

/-- The playback loop over the recorded durations that remain, when as many recorded
event slots remain. -/
theorem start_loop_playback (ds : List D) :
    ∀ (slots : List (Option KeyCallbackArgs)) (fuel i : Nat) (w : World F D),
      slots.length = ds.length → ds.length < fuel →
      w.mode = Mode.PLAYBACK → w.glfw_playback.mode = Mode.PLAYBACK →
      w.fflps.dt_history.drop i = ds →
      w.glfw_playback.glfwPollEvents_produced_function_call_history.drop
        w.glfw_playback.glfwPollEvents_produced_function_call_history_playback_idx = slots →
      ∃ w' : World F D,
        FixedFrequencyLoopPlaybackSystem.start_loop tick fuel i w = Except.ok w' ∧
        w'.mode = Mode.PLAYBACK ∧ w'.glfw_playback.mode = Mode.PLAYBACK ∧
        w'.glfw = w.glfw ∧
        w'.glfw_playback.glfwPollEvents_produced_function_call_history =
          w.glfw_playback.glfwPollEvents_produced_function_call_history ∧
        w'.fflps.dt_history = w.fflps.dt_history ∧
        w'.glfw_playback.glfw_window_should_close_values =
          w.glfw_playback.glfw_window_should_close_values ∧
        w'.glfw_playback.glfwPollEvents_produced_function_call_history_playback_idx =
          w.glfw_playback.glfwPollEvents_produced_function_call_history_playback_idx +
            ds.length ∧
        w'.glfw_playback.playback_idx = w.glfw_playback.playback_idx ∧
        w'.core = core_run ((slots.map Option.toList).zip ds) w.core ∧
        ∃ out : List (Line F D), w'.cout = w.cout ++ out ∧
          positions_after out = core_trace ((slots.map Option.toList).zip ds) w.core := by
  induction ds with
  | nil =>
    intro slots fuel i w hlen hfuel hmode hmode2 hd _
    obtain ⟨fuel, rfl⟩ : ∃ k, fuel = k + 1 := ⟨fuel - 1, by omega⟩
    have hi : ¬ i < w.fflps.dt_history.length := by
      have := List.drop_eq_nil_iff.mp hd
      omega
    refine ⟨w, ?_, hmode, hmode2, rfl, rfl, rfl, rfl, by simp, rfl, ?_, ⟨[], by simp, ?_⟩⟩
    · simp [FixedFrequencyLoopPlaybackSystem.start_loop, hi]
    · simp [core_run]
    · simp [core_trace, positions_after]
  | cons d ds ih =>
    intro slots fuel i w hlen hfuel hmode hmode2 hd hs
    obtain ⟨fuel, rfl⟩ : ∃ k, fuel = k + 1 := ⟨fuel - 1, by omega⟩
    cases slots with
    | nil => simp at hlen
    | cons s slots =>
      obtain ⟨hdi, hdrest, hilt⟩ := drop_eq_cons hd
      obtain ⟨hsi, hsrest, -⟩ := drop_eq_cons hs
      obtain ⟨w1, ht, t1, t2, t3, t4, t5, t6, t7, t8, t9, -, out1, t10, t11⟩ :=
        tick_playback_spec d (w.print (Line.loop_index i w.fflps.dt_history.length))
          hmode hmode2 s hsi
      obtain ⟨w', h, h1, h2, h3, h4, h5, h6, h7, h8, h9, out2, h10, h11⟩ :=
        ih slots fuel (i + 1) w1 (by simpa using hlen) (by simp at hfuel; omega) t1 t2
          (by rw [t5]; exact hdrest) (by rw [t4, t7]; exact hsrest)
      refine ⟨w', ?_, h1, h2, ?_, ?_, ?_, ?_, ?_, ?_, ?_,
        ⟨Line.loop_index i w.fflps.dt_history.length :: (out1 ++ out2), ?_, ?_⟩⟩
      · rw [FixedFrequencyLoopPlaybackSystem.start_loop]
        simp only [hilt, if_true]
        have hdi' : (w.print (Line.loop_index i w.fflps.dt_history.length)).fflps.dt_history[i]?
            = some d := hdi
        rw [hdi']
        simp only [ht]
        exact h
      · rw [h3, t3]; rfl
      · rw [h4, t4]; rfl
      · rw [h5, t5]; rfl
      · rw [h6, t6]; rfl
      · rw [h7, t7]; simp [World.print]; omega
      · rw [h8, t8]; rfl
      · rw [h9, t9]; rfl
      · rw [h10, t10]; simp [World.print]
      · simp only [positions_after, positions_after_append, t11, h11, t9]
        rfl

theorem core_trace_length (inputs : List (List KeyCallbackArgs × D)) :
    ∀ c : Core F D, (core_trace inputs c).length = inputs.length := by
  induction inputs with
  | nil => intro c; rfl
  | cons p inputs ih => intro c; obtain ⟨es, dt⟩ := p; simp [core_trace, ih]

/-- The live run of the program followed by the reset and the playback driver: what both
runs record, read and print. -/
theorem record_then_playback [Zero D] (glfw : GLFW) (calls : List (Call D)) :
    ∃ w1 : World F D, live_run calls (World.init glfw) = Except.ok w1 ∧
      w1.glfw_playback.glfwPollEvents_produced_function_call_history =
        (live_inputs glfw.key_events glfw.poll_events_calls calls).map (fun p => p.1.getLast?) ∧
      w1.fflps.dt_history =
        (live_inputs glfw.key_events glfw.poll_events_calls calls).map (fun p => p.2) ∧
      w1.glfw.poll_events_calls = glfw.poll_events_calls + ticks_of calls ∧
      w1.core = core_run (live_inputs glfw.key_events glfw.poll_events_calls calls)
        (World.init glfw : World F D).core ∧
      positions_after w1.cout =
        core_trace (live_inputs glfw.key_events glfw.poll_events_calls calls)
          (World.init glfw : World F D).core ∧
      ∀ fuel : Nat, ticks_of calls < fuel →
        ∃ w2 : World F D,
          FixedFrequencyLoopPlaybackSystem.start tick term fuel (reset_and_switch w1) =
            Except.ok w2 ∧
          w2.glfw = w1.glfw ∧
          w2.glfw_playback.glfwPollEvents_produced_function_call_history =
            w1.glfw_playback.glfwPollEvents_produced_function_call_history ∧
          w2.fflps.dt_history = w1.fflps.dt_history ∧
          w2.glfw_playback.glfw_window_should_close_values =
            w1.glfw_playback.glfw_window_should_close_values ∧
          w2.glfw_playback.glfwPollEvents_produced_function_call_history_playback_idx =
            ticks_of calls ∧
          w2.glfw_playback.playback_idx = 0 ∧
          w2.core = core_run
            ((((live_inputs glfw.key_events glfw.poll_events_calls calls).map
              (fun p => p.1.getLast?)).map Option.toList).zip
              ((live_inputs glfw.key_events glfw.poll_events_calls calls).map (fun p => p.2)))
            (World.init glfw : World F D).core ∧
          ∃ out : List (Line F D), w2.cout = w1.cout ++ out ∧
            positions_after out = core_trace
              ((((live_inputs glfw.key_events glfw.poll_events_calls calls).map
                (fun p => p.1.getLast?)).map Option.toList).zip
                ((live_inputs glfw.key_events glfw.poll_events_calls calls).map (fun p => p.2)))
              (World.init glfw : World F D).core := by
  obtain ⟨w1, h, h1, h2, h3, h4, h5, h6, h7, h8, h9, h10, h11⟩ :=
    live_run_spec calls (World.init glfw : World F D) rfl rfl rfl
  refine ⟨w1, h, by simpa [World.init, GLFWPlayback.init] using h6,
    by simpa [World.init] using h7, by simpa [World.init] using h5, h8,
    by simpa [World.init, positions_after] using h9, ?_⟩
  intro fuel hfuel
  have hidx : w1.glfw_playback.glfwPollEvents_produced_function_call_history_playback_idx = 0 := by
    simpa [World.init, GLFWPlayback.init] using h10
  have hpidx : w1.glfw_playback.playback_idx = 0 := by
    simpa [World.init, GLFWPlayback.init] using h11
  have h6' : w1.glfw_playback.glfwPollEvents_produced_function_call_history =
      (live_inputs glfw.key_events glfw.poll_events_calls calls).map (fun p => p.1.getLast?) := by
    simpa [World.init, GLFWPlayback.init] using h6
  have h7' : w1.fflps.dt_history =
      (live_inputs glfw.key_events glfw.poll_events_calls calls).map (fun p => p.2) := by
    simpa [World.init] using h7
  obtain ⟨w2, p, p1, p2, p3, p4, p5, p6, p7, p8, p9, out, p10, p11⟩ :=
    start_loop_playback
      ((live_inputs glfw.key_events glfw.poll_events_calls calls).map (fun p => p.2))
      ((live_inputs glfw.key_events glfw.poll_events_calls calls).map (fun p => p.1.getLast?))
      fuel 0 (reset_and_switch w1) (by simp)
      (by simpa [live_inputs_length] using hfuel) rfl rfl
      (by simpa [reset_and_switch] using h7')
      (by simpa [reset_and_switch, hidx] using h6')
  refine ⟨w2, p, p3, p4, p5, p6, ?_, ?_, ?_, out, p10, ?_⟩
  · rw [p7]; simp [reset_and_switch, hidx, live_inputs_length]
  · rw [p8]; simpa [reset_and_switch] using hpidx
  · rw [p9]; rfl
  · rw [p11]; rfl

/-- What one tick does to everything but the key booleans and the event stream, in either
mode. -/
theorem tick_frame (dt : D) (w w' : World F D) (h : tick dt w = Except.ok w') :
    w'.mode = w.mode ∧ w'.glfw_playback.mode = w.glfw_playback.mode ∧
      w'.fflps.dt_history =
        (if w.mode = Mode.RECORDING then w.fflps.dt_history ++ [dt] else w.fflps.dt_history) ∧
      w'.glfw_playback.glfw_window_should_close_values =
        w.glfw_playback.glfw_window_should_close_values ∧
      w'.glfw_playback.playback_idx = w.glfw_playback.playback_idx ∧
      w'.glfw.should_close_calls = w.glfw.should_close_calls ∧
      w'.state_update_data.dt = dt ∧
      w'.state.position = w.state.position.add_assign w'.state_update_data.get_delta_pos ∧
      w'.recording_done = decide (w.current_tick = 300) ∧
      w'.current_tick = (w.current_tick + 1) % 2 ^ 64 ∧
      w'.max_ticks = w.max_ticks := by
  unfold tick at h
  cases hp : GLFWPlayback.glfwPollEvents_ w with
  | error e => rw [hp] at h; cases h
  | ok w1 =>
    rw [hp] at h
    obtain ⟨f1, f2, f3, f4, f5, f6, f7, f8, f9, f10, -⟩ := glfwPollEvents_frame w w1 hp
    cases h
    by_cases hm : w.mode = Mode.RECORDING
    · simp [World.print, f1, f2, f3, f4, f5, f7, f8, f9, f10, hm]
    · simp [World.print, f1, f2, f3, f4, f5, f7, f8, f9, f10, hm]

/-- A live run changes neither mode flag nor `max_ticks`. -/
theorem live_run_frame (calls : List (Call D)) :
    ∀ w w' : World F D, live_run calls w = Except.ok w' →
      w'.mode = w.mode ∧ w'.glfw_playback.mode = w.glfw_playback.mode ∧
      w'.max_ticks = w.max_ticks := by
  induction calls with
  | nil => intro w w' h; simp only [live_run] at h; cases h; exact ⟨rfl, rfl, rfl⟩
  | cons c calls ih =>
    intro w w' h
    cases c with
    | tick dt =>
      simp only [live_run] at h
      cases ht : tick dt w with
      | error e => rw [ht] at h; cases h
      | ok w1 =>
        rw [ht] at h
        obtain ⟨t1, t2, -, -, -, -, -, -, -, -, t11⟩ := tick_frame dt w w1 ht
        obtain ⟨h1, h2, h3⟩ := ih w1 w' h
        exact ⟨h1.trans t1, h2.trans t2, h3.trans t11⟩
    | term =>
      simp only [live_run] at h
      cases ht : term w with
      | error e => rw [ht] at h; cases h
      | ok r =>
        obtain ⟨b, w1⟩ := r
        rw [ht] at h
        obtain ⟨t1, t2, t3, -⟩ := term_frame w w1 b ht
        obtain ⟨h1, h2, h3⟩ := ih w1 w' h
        exact ⟨h1.trans t1, h2.trans t2, h3.trans t3⟩

/-- A live run of two parts is the first part followed by the second. -/
theorem live_run_append (a b : List (Call D)) :
    ∀ w : World F D, live_run (a ++ b) w =
      match live_run a w with
      | Except.error e => Except.error e
      | Except.ok w1 => live_run b w1 := by
  induction a with
  | nil => intro w; rfl
  | cons c a ih =>
    intro w
    cases c with
    | tick dt =>
      simp only [List.cons_append, live_run]
      cases tick dt w with
      | error e => rfl
      | ok w1 => exact ih w1
    | term =>
      simp only [List.cons_append, live_run]
      cases term w with
      | error e => rfl
      | ok r => exact ih r.2

/-- The tick counter after several ticks, far from the wrap of `size_t`. -/
theorem core_run_current_tick (inputs : List (List KeyCallbackArgs × D)) :
    ∀ c : Core F D, c.current_tick + inputs.length < 2 ^ 64 →
      (core_run inputs c).current_tick = c.current_tick + inputs.length := by
  induction inputs with
  | nil => intro c _; rfl
  | cons p inputs ih =>
    intro c hc
    obtain ⟨es, dt⟩ := p
    simp only [List.length_cons] at hc
    have h1 : (core_step es dt c).current_tick = c.current_tick + 1 := by
      simp only [core_step]
      exact Nat.mod_eq_of_lt (by omega)
    simp only [core_run]
    rw [ih (core_step es dt c) (by rw [h1]; omega), h1, List.length_cons]
    omega

/-- One playback tick that returns: the recordings, the windowing library and the close
cursor are as they were. -/
theorem tick_playback_frame (dt : D) (w w' : World F D)
    (hmode : w.mode = Mode.PLAYBACK) (hmode2 : w.glfw_playback.mode = Mode.PLAYBACK)
    (h : tick dt w = Except.ok w') :
    w'.mode = Mode.PLAYBACK ∧ w'.glfw_playback.mode = Mode.PLAYBACK ∧
      w'.glfw_playback.glfwPollEvents_produced_function_call_history =
        w.glfw_playback.glfwPollEvents_produced_function_call_history ∧
      w'.glfw_playback.glfw_window_should_close_values =
        w.glfw_playback.glfw_window_should_close_values ∧
      w'.fflps.dt_history = w.fflps.dt_history ∧
      w'.glfw = w.glfw ∧ w'.max_ticks = w.max_ticks ∧
      w'.glfw_playback.playback_idx = w.glfw_playback.playback_idx ∧
      w'.glfw_playback.glfwPollEvents_produced_function_call_history_playback_idx =
        w.glfw_playback.glfwPollEvents_produced_function_call_history_playback_idx + 1 ∧
      w'.recording_done = decide (w.current_tick = 300) ∧
      w'.current_tick = (w.current_tick + 1) % 2 ^ 64 := by
  cases hs : w.glfw_playback.glfwPollEvents_produced_function_call_history[
    w.glfw_playback.glfwPollEvents_produced_function_call_history_playback_idx]? with
  | none =>
    have hp : GLFWPlayback.glfwPollEvents_ w = Except.error Fault.UndefinedBehaviour := by
      unfold GLFWPlayback.glfwPollEvents_
      simp [hmode2, hs]
    unfold tick at h
    rw [hp] at h
    cases h
  | some slot =>
    obtain ⟨w1, ht, t1, t2, t3, t4, t5, t6, t7, t8, -, t10, -⟩ :=
      tick_playback_spec dt w hmode hmode2 slot hs
    have hw : w1 = w' := Except.ok.inj (ht.symm.trans h)
    subst hw
    have hf := tick_frame dt w w1 h
    exact ⟨t1, t2, t4, t6, t5, t3, hf.2.2.2.2.2.2.2.2.2.2, t8, t7, t10, hf.2.2.2.2.2.2.2.2.2.1⟩

/-- The only fault of `tick` is the unchecked read of its poll. -/
theorem tick_fault (dt : D) (w : World F D) (e : Fault) (h : tick dt w = Except.error e) :
    e = Fault.UndefinedBehaviour := by
  unfold tick at h
  cases hp : GLFWPlayback.glfwPollEvents_ w with
  | error e1 =>
    rw [hp] at h
    simp only [Except.error.injEq] at h
    subst h
    exact glfwPollEvents_fault w e1 hp
  | ok w1 => rw [hp] at h; cases h

/-- The playback loop on the `tick` of `main` ends within as many iterations as durations
remain: it returns with the recordings as they were, or stops at an unchecked read. -/
theorem start_loop_tick_terminates (n : Nat) :
    ∀ (extra i : Nat) (w : World F D), w.mode = Mode.PLAYBACK →
      w.glfw_playback.mode = Mode.PLAYBACK → w.fflps.dt_history.length - i ≤ n →
      (∃ w2 : World F D,
        FixedFrequencyLoopPlaybackSystem.start_loop tick (n + extra + 1) i w = Except.ok w2 ∧
        w2.mode = Mode.PLAYBACK ∧ w2.glfw_playback.mode = Mode.PLAYBACK ∧
        w2.fflps.dt_history = w.fflps.dt_history ∧
        w2.glfw_playback.glfwPollEvents_produced_function_call_history =
          w.glfw_playback.glfwPollEvents_produced_function_call_history ∧
        w2.glfw_playback.glfw_window_should_close_values =
          w.glfw_playback.glfw_window_should_close_values) ∨
      FixedFrequencyLoopPlaybackSystem.start_loop tick (n + extra + 1) i w =
        Except.error Fault.UndefinedBehaviour := by
  induction n with
  | zero =>
    intro extra i w hmode hmode2 hn
    left
    have hi : ¬ i < w.fflps.dt_history.length := by omega
    exact ⟨w, by simp [FixedFrequencyLoopPlaybackSystem.start_loop, hi], hmode, hmode2,
      rfl, rfl, rfl⟩
  | succ n ih =>
    intro extra i w hmode hmode2 hn
    have hfuel : n + 1 + extra + 1 = (n + extra + 1) + 1 := by omega
    rw [hfuel, FixedFrequencyLoopPlaybackSystem.start_loop]
    by_cases hi : i < w.fflps.dt_history.length
    · simp only [hi, if_true]
      have hd : (w.print (Line.loop_index i w.fflps.dt_history.length)).fflps.dt_history[i]?
          = some (w.fflps.dt_history[i]) := List.getElem?_eq_getElem hi
      rw [hd]
      cases ht : tick (w.fflps.dt_history[i])
          (w.print (Line.loop_index i w.fflps.dt_history.length)) with
      | error e =>
        right
        have he := tick_fault _ _ e ht
        subst he
        simp only [ht]
      | ok w1 =>
        obtain ⟨t1, t2, t3, t4, t5, -⟩ := tick_playback_frame _
          (w.print (Line.loop_index i w.fflps.dt_history.length)) w1 hmode hmode2 ht
        have t5' : w1.fflps.dt_history = w.fflps.dt_history := t5
        simp only [ht]
        rcases ih extra (i + 1) w1 t1 t2 (by rw [t5']; omega) with
          ⟨w2, h, h1, h2, h3, h4, h5⟩ | h
        · left
          exact ⟨w2, h, h1, h2, h3.trans t5', h4.trans t3, h5.trans t4⟩
        · right
          exact h
    · left
      simp only [hi, if_false]
      exact ⟨w, rfl, hmode, hmode2, rfl, rfl, rfl⟩

/-- The check of both mode flags never fires in a run whose flags are both `m`. -/
theorem live_run_asserting_eq (m : Mode) (calls : List (Call D)) :
    ∀ w : World F D, w.mode = m → w.glfw_playback.mode = m →
      live_run_asserting m calls w = live_run calls w := by
  induction calls with
  | nil => intro w _ _; rfl
  | cons c calls ih =>
    intro w hmode hmode2
    cases c with
    | tick dt =>
      simp only [live_run_asserting, live_run, tick_asserting, hmode, hmode2, and_self,
        if_true]
      cases ht : tick dt w with
      | error e => rfl
      | ok w1 =>
        obtain ⟨t1, t2, -⟩ := tick_frame dt w w1 ht
        exact ih w1 (t1.trans hmode) (t2.trans hmode2)
    | term =>
      simp only [live_run_asserting, live_run, term_asserting, hmode, hmode2, and_self,
        if_true]
      cases ht : term w with
      | error e => rfl
      | ok r =>
        obtain ⟨b, w1⟩ := r
        obtain ⟨t1, t2, -⟩ := term_frame w w1 b ht
        exact ih w1 (t1.trans hmode) (t2.trans hmode2)

/-- The check of both mode flags never fires in the playback loop entered with both flags
`m`. -/
theorem start_loop_asserting_eq (m : Mode) (fuel : Nat) :
    ∀ (i : Nat) (w : World F D), w.mode = m → w.glfw_playback.mode = m →
      FixedFrequencyLoopPlaybackSystem.start_loop (tick_asserting m) fuel i w =
        FixedFrequencyLoopPlaybackSystem.start_loop tick fuel i w := by
  induction fuel with
  | zero => intro i w _ _; rfl
  | succ fuel ih =>
    intro i w hmode hmode2
    simp only [FixedFrequencyLoopPlaybackSystem.start_loop]
    split_ifs with hi
    · cases hd : (w.print (Line.loop_index i w.fflps.dt_history.length)).fflps.dt_history[i]?
        with
      | none => rfl
      | some d =>
        have ha : tick_asserting m d (w.print (Line.loop_index i w.fflps.dt_history.length))
            = tick d (w.print (Line.loop_index i w.fflps.dt_history.length)) := by
          simp [tick_asserting, World.print, hmode, hmode2]
        simp only [ha]
        cases ht : tick d (w.print (Line.loop_index i w.fflps.dt_history.length)) with
        | error e => rfl
        | ok w1 =>
          obtain ⟨t1, t2, -⟩ := tick_frame d _ w1 ht
          exact ih (i + 1) w1 (t1.trans hmode) (t2.trans hmode2)
    · rfl

/-- The playback loop on the `tick` of `main` changes neither mode flag. -/
theorem start_loop_modes (fuel : Nat) :
    ∀ (i : Nat) (w w2 : World F D),
      FixedFrequencyLoopPlaybackSystem.start_loop tick fuel i w = Except.ok w2 →
      w2.mode = w.mode ∧ w2.glfw_playback.mode = w.glfw_playback.mode := by
  induction fuel with
  | zero => intro i w w2 h; simp only [FixedFrequencyLoopPlaybackSystem.start_loop] at h; cases h
  | succ fuel ih =>
    intro i w w2 h
    simp only [FixedFrequencyLoopPlaybackSystem.start_loop] at h
    split_ifs at h with hi
    · cases hd : (w.print (Line.loop_index i w.fflps.dt_history.length)).fflps.dt_history[i]?
        with
      | none => simp only [hd] at h; cases h
      | some d =>
        simp only [hd] at h
        cases ht : tick d (w.print (Line.loop_index i w.fflps.dt_history.length)) with
        | error e => simp only [ht] at h; cases h
        | ok w1 =>
          simp only [ht] at h
          obtain ⟨t1, t2, -⟩ := tick_frame d _ w1 ht
          obtain ⟨h1, h2⟩ := ih (i + 1) w1 w2 h
          exact ⟨h1.trans t1, h2.trans t2⟩
    · cases h
      exact ⟨rfl, rfl⟩

end ProgramLemmas

/-! ## The claims -/

section Claims

/-- C1. Replay fidelity. Take any live run: any sequence of calls a live driver makes on
`tick` (with durations dt_1..dt_N) and `term`, started in the initial program state (all
keys released, position at the origin), in which every real poll of the run delivers at
most one key event to the listener. The live run returns; after the reset and the switch
of both mode flags to PLAYBACK, `FixedFrequencyLoopPlaybackSystem::start` with the same
`tick` returns (with any loop bound above N); the N positions it prints after its ticks,
with their tick numbers, are in order those the live run printed, and the final position
is that of the live run. No property of the arithmetic is used. -/
theorem replay_fidelity {F D : Type} [Zero F] [One F] [Add F] [Sub F] [Mul F]
    [FloatCast D F] [Zero D] (glfw : GLFW) (calls : List (Call D)) (extra : Nat)
    (honce : ∀ n : Nat, glfw.poll_events_calls ≤ n →
      n < glfw.poll_events_calls + ticks_of calls → (glfw.key_events n).length ≤ 1) :
    ∃ w1 w2 : World F D, ∃ out : List (Line F D),
      live_run calls (World.init glfw) = Except.ok w1 ∧
      (positions_after w1.cout).length = ticks_of calls ∧
      FixedFrequencyLoopPlaybackSystem.start tick term (ticks_of calls + extra + 1)
        (reset_and_switch w1) = Except.ok w2 ∧
      w2.cout = w1.cout ++ out ∧
      positions_after out = positions_after w1.cout ∧
      w2.state.position = w1.state.position := by
  obtain ⟨w1, h, -, -, -, hcore, hpos, hplay⟩ :=
    record_then_playback (F := F) glfw calls
  obtain ⟨w2, p, -, -, -, -, -, -, pcore, out, pout, ppos⟩ :=
    hplay (ticks_of calls + extra + 1) (by omega)
  have hzip := zip_slots_durations (live_inputs glfw.key_events glfw.poll_events_calls calls)
    (fun q hq => by
      obtain ⟨m, hm1, hm2, hm⟩ := live_inputs_mem glfw.key_events calls _ q hq
      rw [hm]; exact honce m hm1 hm2)
  rw [hzip] at pcore ppos
  refine ⟨w1, w2, out, h, ?_, p, pout, ?_, ?_⟩
  · rw [hpos, core_trace_length, live_inputs_length]
  · rw [ppos, hpos]
  · have : w2.core = w1.core := by rw [pcore, hcore]
    exact congrArg Core.position this

/-- Witness of C1: the live run of the scenario (three ticks, three close queries), on the
rationals. -/
theorem replay_fidelity_witness :
    (∀ n : Nat, (scenario_glfw 0 0).poll_events_calls ≤ n →
      n < (scenario_glfw 0 0).poll_events_calls + ticks_of scenario_calls →
      ((scenario_glfw 0 0).key_events n).length ≤ 1) ∧
    ∃ w1 w2 : World ℚ ℚ, ∃ out : List (Line ℚ ℚ),
      live_run scenario_calls (World.init (scenario_glfw 0 0)) = Except.ok w1 ∧
      (positions_after w1.cout).length = ticks_of scenario_calls ∧
      FixedFrequencyLoopPlaybackSystem.start tick term (ticks_of scenario_calls + 0 + 1)
        (reset_and_switch w1) = Except.ok w2 ∧
      w2.cout = w1.cout ++ out ∧
      positions_after out = positions_after w1.cout ∧
      w2.state.position = w1.state.position :=
  ⟨fun n _ _ => by unfold scenario_glfw; simp only []; split_ifs <;> simp,
   replay_fidelity (scenario_glfw 0 0) scenario_calls 0
    (fun n _ _ => by unfold scenario_glfw; simp only []; split_ifs <;> simp)⟩

/-- C2. Termination independence in playback. When the callback never changes
`dt_history`, `FixedFrequencyLoopPlaybackSystem::start` on a duration stream of length M
(with any loop bound above M) does exactly what M successive calls of the callback do, the
i-th call receiving `dt_history[i]`, in recorded order; and the result is the same for
every two termination predicates whatsoever: the predicate is never evaluated. -/
theorem start_termination_independence {F D : Type}
    (rate_limited_func : D → World F D → Except Fault (World F D))
    (termination_condition_func other_func : World F D → Except Fault (Bool × World F D))
    (w : World F D) (extra : Nat)
    (hkeep : ∀ (dt : D) (w w' : World F D), rate_limited_func dt w = Except.ok w' →
      w'.fflps.dt_history = w.fflps.dt_history) :
    FixedFrequencyLoopPlaybackSystem.start rate_limited_func termination_condition_func
        (w.fflps.dt_history.length + extra + 1) w =
      calls_in_order rate_limited_func w.fflps.dt_history 0 w ∧
    FixedFrequencyLoopPlaybackSystem.start rate_limited_func other_func
        (w.fflps.dt_history.length + extra + 1) w =
      FixedFrequencyLoopPlaybackSystem.start rate_limited_func termination_condition_func
        (w.fflps.dt_history.length + extra + 1) w :=
  ⟨start_loop_eq_calls_in_order rate_limited_func hkeep w.fflps.dt_history extra 0 w
    (List.drop_zero _), rfl⟩

/-- Witness of C2: the `tick` of `main` with its mode flag held at PLAYBACK never changes
`dt_history`; the driver runs it over two recorded durations whether the predicate is
`term` or one that would stop at once. -/
theorem start_termination_independence_witness :
    (∀ (dt : ℚ) (w w' : World ℚ ℚ), playback_tick dt w = Except.ok w' →
      w'.fflps.dt_history = w.fflps.dt_history) ∧
    (FixedFrequencyLoopPlaybackSystem.start playback_tick term
        (two_ticks_world.fflps.dt_history.length + 0 + 1) two_ticks_world =
      calls_in_order playback_tick two_ticks_world.fflps.dt_history 0 two_ticks_world ∧
    FixedFrequencyLoopPlaybackSystem.start playback_tick stop_at_once
        (two_ticks_world.fflps.dt_history.length + 0 + 1) two_ticks_world =
      FixedFrequencyLoopPlaybackSystem.start playback_tick term
        (two_ticks_world.fflps.dt_history.length + 0 + 1) two_ticks_world) :=
  ⟨fun dt w w' h => by
      have := (tick_frame dt _ w' h).2.2.1
      simpa using this,
   start_termination_independence playback_tick term stop_at_once two_ticks_world 0
    (fun dt w w' h => by
      have := (tick_frame dt _ w' h).2.2.1
      simpa using this)⟩

/-- C3. Slot alignment. A live run from the initial program state that makes N calls of
`tick`, hence N calls of `glfwPollEvents_` in RECORDING mode and N real polls, whatever
each poll delivers, leaves an event history of length exactly N, and N recorded
durations. The playback run that follows returns without a fault, so every slot it read
was in range; it leaves the event history as recorded and its event cursor, which started
at 0, at N. -/
theorem slot_alignment {F D : Type} [Zero F] [One F] [Add F] [Sub F] [Mul F]
    [FloatCast D F] [Zero D] (glfw : GLFW) (calls : List (Call D)) (extra : Nat) :
    ∃ w1 w2 : World F D,
      live_run calls (World.init glfw) = Except.ok w1 ∧
      w1.glfw.poll_events_calls = glfw.poll_events_calls + ticks_of calls ∧
      w1.glfw_playback.glfwPollEvents_produced_function_call_history.length = ticks_of calls ∧
      w1.fflps.dt_history.length = ticks_of calls ∧
      (reset_and_switch w1).glfw_playback.glfwPollEvents_produced_function_call_history_playback_idx
        = 0 ∧
      FixedFrequencyLoopPlaybackSystem.start tick term (ticks_of calls + extra + 1)
        (reset_and_switch w1) = Except.ok w2 ∧
      w2.glfw_playback.glfwPollEvents_produced_function_call_history =
        w1.glfw_playback.glfwPollEvents_produced_function_call_history ∧
      w2.glfw_playback.glfwPollEvents_produced_function_call_history_playback_idx =
        ticks_of calls := by
  obtain ⟨w1, h, hhist, hdts, hpolls, -, -, hplay⟩ := record_then_playback (F := F) glfw calls
  obtain ⟨w2, p, -, phist, -, -, pidx, -⟩ := hplay (ticks_of calls + extra + 1) (by omega)
  have hlive := live_run_spec calls (World.init glfw : World F D) rfl rfl rfl
  obtain ⟨w1', h', -, -, -, -, -, -, -, -, -, hidx, -⟩ := hlive
  have hw : w1' = w1 := by
    have := h'.symm.trans h
    exact Except.ok.inj this
  subst hw
  refine ⟨w1', w2, h, hpolls, ?_, ?_, ?_, p, phist, pidx⟩
  · rw [hhist, List.length_map, live_inputs_length]
  · rw [hdts, List.length_map, live_inputs_length]
  · simpa [reset_and_switch, World.init, GLFWPlayback.init] using hidx

/-- C4, as stated, fails. In the playback start where nothing was recorded both cursors are
at the end of their stream; there `glfwPollEvents_` and `glfwWindowShouldClose_` do an
unchecked read past the end, which is undefined behaviour of the code, and neither fails
with StreamExhausted. -/
theorem exhausted_read_is_not_StreamExhausted :
    exhausted_world.glfw_playback.mode = Mode.PLAYBACK ∧
    exhausted_world.glfw_playback.glfwPollEvents_produced_function_call_history.length ≤
      exhausted_world.glfw_playback.glfwPollEvents_produced_function_call_history_playback_idx ∧
    exhausted_world.glfw_playback.glfw_window_should_close_values.length ≤
      exhausted_world.glfw_playback.playback_idx ∧
    GLFWPlayback.glfwPollEvents_ exhausted_world = Except.error Fault.UndefinedBehaviour ∧
    GLFWPlayback.glfwPollEvents_ exhausted_world ≠ Except.error Fault.StreamExhausted ∧
    GLFWPlayback.glfwWindowShouldClose_ exhausted_world =
      Except.error Fault.UndefinedBehaviour ∧
    GLFWPlayback.glfwWindowShouldClose_ exhausted_world ≠
      Except.error Fault.StreamExhausted := by
  have h1 := glfwPollEvents_playback_fault exhausted_world rfl (Nat.le_refl 0)
  have h2 := glfwWindowShouldClose_playback_fault exhausted_world rfl (Nat.le_refl 0)
  refine ⟨rfl, Nat.le_refl 0, Nat.le_refl 0, h1, ?_, h2, ?_⟩
  · rw [h1]; intro h; cases h
  · rw [h2]; intro h; cases h

/-- C4, amended. In PLAYBACK mode a call of `glfwPollEvents_` whose event cursor is at or
past the length of the event history, and a call of `glfwWindowShouldClose_` whose cursor
is at or past the number of recorded close values, is an unchecked `operator[]` past
the last element of the vector: undefined behaviour. The code has no bounds check and
no StreamExhausted error. -/
theorem exhausted_read_is_undefined_behaviour {F D : Type} (w : World F D)
    (hmode : w.glfw_playback.mode = Mode.PLAYBACK) :
    (w.glfw_playback.glfwPollEvents_produced_function_call_history.length ≤
        w.glfw_playback.glfwPollEvents_produced_function_call_history_playback_idx →
      GLFWPlayback.glfwPollEvents_ w = Except.error Fault.UndefinedBehaviour) ∧
    (w.glfw_playback.glfw_window_should_close_values.length ≤ w.glfw_playback.playback_idx →
      GLFWPlayback.glfwWindowShouldClose_ w = Except.error Fault.UndefinedBehaviour) :=
  ⟨glfwPollEvents_playback_fault w hmode, glfwWindowShouldClose_playback_fault w hmode⟩

/-- Witness of C4 amended: a playback start with one recorded event and one close value,
after its cursors have moved to 1. -/
theorem exhausted_read_is_undefined_behaviour_witness :
    ({ one_event_world with glfw_playback := { one_event_world.glfw_playback with
        glfwPollEvents_produced_function_call_history_playback_idx := 1
        playback_idx := 1 } } : World ℚ ℚ).glfw_playback.mode = Mode.PLAYBACK ∧
    GLFWPlayback.glfwPollEvents_
      ({ one_event_world with glfw_playback := { one_event_world.glfw_playback with
        glfwPollEvents_produced_function_call_history_playback_idx := 1
        playback_idx := 1 } } : World ℚ ℚ) = Except.error Fault.UndefinedBehaviour ∧
    GLFWPlayback.glfwWindowShouldClose_
      ({ one_event_world with glfw_playback := { one_event_world.glfw_playback with
        glfwPollEvents_produced_function_call_history_playback_idx := 1
        playback_idx := 1 } } : World ℚ ℚ) = Except.error Fault.UndefinedBehaviour :=
  ⟨rfl,
   (exhausted_read_is_undefined_behaviour _ rfl).1 (Nat.le_refl 1),
   (exhausted_read_is_undefined_behaviour _ rfl).2 (Nat.le_refl 1)⟩

/-- C5, as stated, fails. A tick in PLAYBACK mode (both flags), with its event cursor in
range, is asked to record its duration 0.3: it returns normally, no ModeViolation, and
`dt_history` is what it was: the append is silently skipped. -/
theorem record_in_playback_is_skipped :
    one_event_world.mode = Mode.PLAYBACK ∧
    one_event_world.glfw_playback.mode = Mode.PLAYBACK ∧
    tick (3 / 10) one_event_world ≠ Except.error Fault.ModeViolation ∧
    ∃ w' : World ℚ ℚ, tick (3 / 10) one_event_world = Except.ok w' ∧
      w'.fflps.dt_history = one_event_world.fflps.dt_history := by
  obtain ⟨w', h, -, -, -, -, hd, -⟩ :=
    tick_playback_spec (3 / 10) one_event_world rfl rfl
      (some ⟨GLFW_KEY_UP, 0, GLFW_PRESS, 0⟩) rfl
  refine ⟨rfl, rfl, ?_, w', h, hd⟩
  rw [h]; intro hc; cases hc

/-- C5, amended. No call yields ModeViolation; the code has no such check. Each wrapper
takes its discipline from its mode flag: with the flag at PLAYBACK, `glfwPollEvents_`
appends nothing to the event stream, `glfwWindowShouldClose_` appends nothing to the
close-value stream and `tick` skips the append to `dt_history`; with the flag at RECORDING
the two wrappers return normally and advance no cursor. -/
theorem mode_selects_discipline {F D : Type} [Zero F] [One F] [Add F] [Sub F] [Mul F]
    [FloatCast D F] (dt : D) (w : World F D) :
    (GLFWPlayback.glfwPollEvents_ w ≠ Except.error Fault.ModeViolation ∧
      GLFWPlayback.glfwWindowShouldClose_ w ≠ Except.error Fault.ModeViolation ∧
      tick dt w ≠ Except.error Fault.ModeViolation) ∧
    (w.glfw_playback.mode = Mode.PLAYBACK → ∀ w' : World F D,
      GLFWPlayback.glfwPollEvents_ w = Except.ok w' →
      w'.glfw_playback.glfwPollEvents_produced_function_call_history =
        w.glfw_playback.glfwPollEvents_produced_function_call_history) ∧
    (w.glfw_playback.mode = Mode.PLAYBACK → ∀ (b : Bool) (w' : World F D),
      GLFWPlayback.glfwWindowShouldClose_ w = Except.ok (b, w') →
      w'.glfw_playback.glfw_window_should_close_values =
        w.glfw_playback.glfw_window_should_close_values) ∧
    (w.mode = Mode.PLAYBACK → ∀ w' : World F D, tick dt w = Except.ok w' →
      w'.fflps.dt_history = w.fflps.dt_history) ∧
    (w.glfw_playback.mode = Mode.RECORDING → ∃ w' : World F D,
      GLFWPlayback.glfwPollEvents_ w = Except.ok w' ∧
      w'.glfw_playback.glfwPollEvents_produced_function_call_history_playback_idx =
        w.glfw_playback.glfwPollEvents_produced_function_call_history_playback_idx) ∧
    (w.glfw_playback.mode = Mode.RECORDING → ∃ (b : Bool) (w' : World F D),
      GLFWPlayback.glfwWindowShouldClose_ w = Except.ok (b, w') ∧
      w'.glfw_playback.playback_idx = w.glfw_playback.playback_idx) := by
  have hpoll : GLFWPlayback.glfwPollEvents_ w ≠ Except.error Fault.ModeViolation := by
    unfold GLFWPlayback.glfwPollEvents_
    split_ifs
    · intro h; cases h
    · split
      · intro h; cases h
      · intro h; cases h
    · intro h; cases h
  have hclose : GLFWPlayback.glfwWindowShouldClose_ w ≠ Except.error Fault.ModeViolation := by
    unfold GLFWPlayback.glfwWindowShouldClose_
    split_ifs
    · intro h; cases h
    · split
      · intro h; cases h
      · intro h; cases h
    · intro h; cases h
  refine ⟨⟨hpoll, hclose, ?_⟩, ?_, ?_, ?_, ?_, ?_⟩
  · unfold tick
    cases hp : GLFWPlayback.glfwPollEvents_ w with
    | error e =>
      intro h
      simp only [Except.error.injEq] at h
      exact hpoll (by rw [hp, h])
    | ok w1 => intro h; cases h
  · intro hm w' h
    cases hs : w.glfw_playback.glfwPollEvents_produced_function_call_history[
      w.glfw_playback.glfwPollEvents_produced_function_call_history_playback_idx]? with
    | none =>
      unfold GLFWPlayback.glfwPollEvents_ at h
      simp [hm, hs] at h
    | some slot =>
      rw [glfwPollEvents_playback_eq w hm slot hs] at h
      cases h
      rfl
  · intro hm b w' h
    cases hs : w.glfw_playback.glfw_window_should_close_values[
      w.glfw_playback.playback_idx]? with
    | none =>
      unfold GLFWPlayback.glfwWindowShouldClose_ at h
      simp [hm, hs] at h
    | some v =>
      rw [glfwWindowShouldClose_playback_eq w hm v hs] at h
      cases h
      rfl
  · intro hm w' h
    have := (tick_frame dt w w' h).2.2.1
    simpa [hm] using this
  · intro hm
    exact ⟨_, glfwPollEvents_recording_eq w hm, rfl⟩
  · intro hm
    exact ⟨_, _, glfwWindowShouldClose_recording_eq w hm, rfl⟩

/-- Witness of C5 amended, at a playback start with one recorded event, one close value
and one duration. -/
theorem mode_selects_discipline_witness :
    one_event_world.mode = Mode.PLAYBACK ∧
    one_event_world.glfw_playback.mode = Mode.PLAYBACK ∧
    (∀ w' : World ℚ ℚ, GLFWPlayback.glfwPollEvents_ one_event_world = Except.ok w' →
      w'.glfw_playback.glfwPollEvents_produced_function_call_history =
        one_event_world.glfw_playback.glfwPollEvents_produced_function_call_history) ∧
    (∀ (b : Bool) (w' : World ℚ ℚ),
      GLFWPlayback.glfwWindowShouldClose_ one_event_world = Except.ok (b, w') →
      w'.glfw_playback.glfw_window_should_close_values =
        one_event_world.glfw_playback.glfw_window_should_close_values) ∧
    (∀ w' : World ℚ ℚ, tick (3 / 10) one_event_world = Except.ok w' →
      w'.fflps.dt_history = one_event_world.fflps.dt_history) :=
  ⟨rfl, rfl,
   (mode_selects_discipline (3 / 10) one_event_world).2.1 rfl,
   (mode_selects_discipline (3 / 10) one_event_world).2.2.1 rfl,
   (mode_selects_discipline (3 / 10) one_event_world).2.2.2.1 rfl⟩

/-- C6. Event capture in RECORDING. A call of `glfwPollEvents_` in RECORDING mode entered
with an empty scratch slot returns normally after one real poll and appends exactly one
slot to the event history, the earlier slots unchanged: the last event the listener
received during the real poll, hence None when the listener was not invoked and
Some(key, scancode, action, mods) of the event when it was invoked once; the scratch slot
is empty again on return. -/
theorem glfwPollEvents_recording_captures {F D : Type} (w : World F D)
    (hmode : w.glfw_playback.mode = Mode.RECORDING)
    (hscratch : w.glfwPollEvents_produced_function_call = none) :
    ∃ w' : World F D, GLFWPlayback.glfwPollEvents_ w = Except.ok w' ∧
      w'.glfw.poll_events_calls = w.glfw.poll_events_calls + 1 ∧
      w'.glfw_playback.glfwPollEvents_produced_function_call_history =
        w.glfw_playback.glfwPollEvents_produced_function_call_history ++
          [(w.glfw.key_events w.glfw.poll_events_calls).getLast?] ∧
      (w.glfw.key_events w.glfw.poll_events_calls = [] →
        w'.glfw_playback.glfwPollEvents_produced_function_call_history =
          w.glfw_playback.glfwPollEvents_produced_function_call_history ++ [none]) ∧
      (∀ key scancode action mods : Int,
        w.glfw.key_events w.glfw.poll_events_calls = [⟨key, scancode, action, mods⟩] →
        w'.glfw_playback.glfwPollEvents_produced_function_call_history =
          w.glfw_playback.glfwPollEvents_produced_function_call_history ++
            [some ⟨key, scancode, action, mods⟩]) ∧
      w'.glfwPollEvents_produced_function_call = none := by
  have hslot : (if w.glfw.key_events w.glfw.poll_events_calls = [] then
        w.glfwPollEvents_produced_function_call
      else (w.glfw.key_events w.glfw.poll_events_calls).getLast?) =
      (w.glfw.key_events w.glfw.poll_events_calls).getLast? := by
    split_ifs with h
    · rw [hscratch, h]; rfl
    · rfl
  refine ⟨_, glfwPollEvents_recording_eq w hmode, rfl, ?_, ?_, ?_, rfl⟩
  · simp only [hslot]
  · intro h
    simp only [hslot]
    rw [h]
    rfl
  · intro key scancode action mods h
    simp only [hslot]
    rw [h]
    rfl

/-- Witness of C6: the first poll of the scenario, in the initial program state. -/
theorem glfwPollEvents_recording_captures_witness :
    scenario_world.glfw_playback.mode = Mode.RECORDING ∧
    scenario_world.glfwPollEvents_produced_function_call = none ∧
    ∃ w' : World ℚ ℚ, GLFWPlayback.glfwPollEvents_ scenario_world = Except.ok w' ∧
      w'.glfw.poll_events_calls = scenario_world.glfw.poll_events_calls + 1 ∧
      w'.glfw_playback.glfwPollEvents_produced_function_call_history =
        scenario_world.glfw_playback.glfwPollEvents_produced_function_call_history ++
          [(scenario_world.glfw.key_events scenario_world.glfw.poll_events_calls).getLast?] ∧
      (scenario_world.glfw.key_events scenario_world.glfw.poll_events_calls = [] →
        w'.glfw_playback.glfwPollEvents_produced_function_call_history =
          scenario_world.glfw_playback.glfwPollEvents_produced_function_call_history ++
            [none]) ∧
      (∀ key scancode action mods : Int,
        scenario_world.glfw.key_events scenario_world.glfw.poll_events_calls =
          [⟨key, scancode, action, mods⟩] →
        w'.glfw_playback.glfwPollEvents_produced_function_call_history =
          scenario_world.glfw_playback.glfwPollEvents_produced_function_call_history ++
            [some ⟨key, scancode, action, mods⟩]) ∧
      w'.glfwPollEvents_produced_function_call = none :=
  ⟨rfl, rfl, glfwPollEvents_recording_captures scenario_world rfl rfl⟩

/-- C7. Event replay in PLAYBACK. A call of `glfwPollEvents_` in PLAYBACK mode with its
cursor i below the length of the event history returns normally; when slot i is
Some(event) the key booleans are those `user_key_callback` gives for that event on the
current state, when slot i is None they are unchanged; in both cases the cursor becomes
i+1, the event history is unchanged and the windowing library is untouched (no real
poll). -/
theorem glfwPollEvents_playback_replays {F D : Type} (w : World F D)
    (hmode : w.glfw_playback.mode = Mode.PLAYBACK)
    (hi : w.glfw_playback.glfwPollEvents_produced_function_call_history_playback_idx <
      w.glfw_playback.glfwPollEvents_produced_function_call_history.length) :
    ∃ w' : World F D, GLFWPlayback.glfwPollEvents_ w = Except.ok w' ∧
      (∀ e : KeyCallbackArgs,
        w.glfw_playback.glfwPollEvents_produced_function_call_history[
          w.glfw_playback.glfwPollEvents_produced_function_call_history_playback_idx] = some e →
        w'.state_update_data =
          (user_key_callback e.key e.scancode e.action e.mods w).state_update_data) ∧
      (w.glfw_playback.glfwPollEvents_produced_function_call_history[
          w.glfw_playback.glfwPollEvents_produced_function_call_history_playback_idx] = none →
        w'.state_update_data = w.state_update_data) ∧
      w'.glfw_playback.glfwPollEvents_produced_function_call_history_playback_idx =
        w.glfw_playback.glfwPollEvents_produced_function_call_history_playback_idx + 1 ∧
      w'.glfw_playback.glfwPollEvents_produced_function_call_history =
        w.glfw_playback.glfwPollEvents_produced_function_call_history ∧
      w'.glfw = w.glfw := by
  have hslot := List.getElem?_eq_getElem hi
  refine ⟨_, glfwPollEvents_playback_eq w hmode _ hslot, ?_, ?_, rfl, rfl, rfl⟩
  · intro e he
    rw [he, user_key_callback_eq]
    rfl
  · intro he
    rw [he]
    rfl

/-- Witness of C7: the playback start with one recorded event, the key UP pressed. -/
theorem glfwPollEvents_playback_replays_witness :
    one_event_world.glfw_playback.mode = Mode.PLAYBACK ∧
    ∃ (hi : one_event_world.glfw_playback.glfwPollEvents_produced_function_call_history_playback_idx
        < one_event_world.glfw_playback.glfwPollEvents_produced_function_call_history.length)
      (w' : World ℚ ℚ), GLFWPlayback.glfwPollEvents_ one_event_world = Except.ok w' ∧
      (∀ e : KeyCallbackArgs,
        one_event_world.glfw_playback.glfwPollEvents_produced_function_call_history[
          one_event_world.glfw_playback.glfwPollEvents_produced_function_call_history_playback_idx]
          = some e →
        w'.state_update_data =
          (user_key_callback e.key e.scancode e.action e.mods one_event_world).state_update_data) ∧
      (one_event_world.glfw_playback.glfwPollEvents_produced_function_call_history[
          one_event_world.glfw_playback.glfwPollEvents_produced_function_call_history_playback_idx]
          = none →
        w'.state_update_data = one_event_world.state_update_data) ∧
      w'.glfw_playback.glfwPollEvents_produced_function_call_history_playback_idx =
        one_event_world.glfw_playback.glfwPollEvents_produced_function_call_history_playback_idx
          + 1 ∧
      w'.glfw_playback.glfwPollEvents_produced_function_call_history =
        one_event_world.glfw_playback.glfwPollEvents_produced_function_call_history ∧
      w'.glfw = one_event_world.glfw :=
  ⟨rfl, Nat.zero_lt_one, glfwPollEvents_playback_replays one_event_world rfl Nat.zero_lt_one⟩

/-- C8. Predicate capture wrapper. In RECORDING mode `glfwWindowShouldClose_` makes one real
close query, returns its answer as a boolean (non-zero is true) and appends exactly that
boolean as the last recorded value. In PLAYBACK mode with its cursor i below the number of
recorded values it returns the i-th recorded value, moves `playback_idx` to i+1, leaves the
recorded values unchanged and leaves the windowing library untouched (no real query).
Consequently, when k successive calls in RECORDING mode, started with nothing recorded and
the cursor at 0, return the values bs, then k successive calls after the switch to
PLAYBACK return the same values bs, in the same order. -/
theorem glfwWindowShouldClose_record_replay {F D : Type} (w : World F D) (k : Nat) :
    (w.glfw_playback.mode = Mode.RECORDING → ∃ w' : World F D,
      GLFWPlayback.glfwWindowShouldClose_ w =
        Except.ok (decide (w.glfw.should_close w.glfw.should_close_calls ≠ 0), w') ∧
      w'.glfw_playback.glfw_window_should_close_values =
        w.glfw_playback.glfw_window_should_close_values ++
          [decide (w.glfw.should_close w.glfw.should_close_calls ≠ 0)] ∧
      w'.glfw_playback.playback_idx = w.glfw_playback.playback_idx ∧
      w'.glfw.should_close_calls = w.glfw.should_close_calls + 1) ∧
    (w.glfw_playback.mode = Mode.PLAYBACK →
      ∀ hi : w.glfw_playback.playback_idx <
        w.glfw_playback.glfw_window_should_close_values.length,
      ∃ w' : World F D,
        GLFWPlayback.glfwWindowShouldClose_ w =
          Except.ok (w.glfw_playback.glfw_window_should_close_values[
            w.glfw_playback.playback_idx], w') ∧
        w'.glfw_playback.playback_idx = w.glfw_playback.playback_idx + 1 ∧
        w'.glfw_playback.glfw_window_should_close_values =
          w.glfw_playback.glfw_window_should_close_values ∧
        w'.glfw = w.glfw) ∧
    (w.glfw_playback.mode = Mode.RECORDING →
      w.glfw_playback.glfw_window_should_close_values = [] →
      w.glfw_playback.playback_idx = 0 →
      ∃ (bs : List Bool) (w1 w2 : World F D),
        close_queries k w = Except.ok (bs, w1) ∧ bs.length = k ∧
        w1.glfw_playback.glfw_window_should_close_values = bs ∧
        close_queries k
          { w1 with glfw_playback := { w1.glfw_playback with mode := Mode.PLAYBACK } } =
          Except.ok (bs, w2)) := by
  refine ⟨?_, ?_, ?_⟩
  · intro hm
    exact ⟨_, glfwWindowShouldClose_recording_eq w hm, rfl, rfl, rfl⟩
  · intro hm hi
    exact ⟨_, glfwWindowShouldClose_playback_eq w hm _ (List.getElem?_eq_getElem hi),
      rfl, rfl, rfl⟩
  · intro hm hv hp
    obtain ⟨bs, w1, h, hl, hv1, hp1, -⟩ := close_queries_recording k w hm
    rw [hv, List.nil_append] at hv1
    rw [hp] at hp1
    obtain ⟨w2, h2, -⟩ := close_queries_playback bs
      ({ w1 with glfw_playback := { w1.glfw_playback with mode := Mode.PLAYBACK } } :
        World F D) rfl
      (by simp only [hp1, hv1, List.drop_zero])
    rw [hl] at h2
    exact ⟨bs, w1, w2, h, hl, hv1, h2⟩

/-- Witness of C8: the recording part in the initial program state of the scenario with
three successive queries, the playback read at a playback start with one close value. -/
theorem glfwWindowShouldClose_record_replay_witness :
    (scenario_world.glfw_playback.mode = Mode.RECORDING ∧
      scenario_world.glfw_playback.glfw_window_should_close_values = [] ∧
      scenario_world.glfw_playback.playback_idx = 0 ∧
      ∃ (bs : List Bool) (w1 w2 : World ℚ ℚ),
        close_queries 3 scenario_world = Except.ok (bs, w1) ∧ bs.length = 3 ∧
        w1.glfw_playback.glfw_window_should_close_values = bs ∧
        close_queries 3
          { w1 with glfw_playback := { w1.glfw_playback with mode := Mode.PLAYBACK } } =
          Except.ok (bs, w2)) ∧
    (one_event_world.glfw_playback.mode = Mode.PLAYBACK ∧
      ∃ (hi : one_event_world.glfw_playback.playback_idx <
          one_event_world.glfw_playback.glfw_window_should_close_values.length)
        (w' : World ℚ ℚ),
        GLFWPlayback.glfwWindowShouldClose_ one_event_world =
          Except.ok (one_event_world.glfw_playback.glfw_window_should_close_values[
            one_event_world.glfw_playback.playback_idx], w') ∧
        w'.glfw_playback.playback_idx = one_event_world.glfw_playback.playback_idx + 1 ∧
        w'.glfw_playback.glfw_window_should_close_values =
          one_event_world.glfw_playback.glfw_window_should_close_values ∧
        w'.glfw = one_event_world.glfw) :=
  ⟨⟨rfl, rfl, rfl, (glfwWindowShouldClose_record_replay scenario_world 3).2.2 rfl rfl rfl⟩,
   ⟨rfl, Nat.zero_lt_one,
    (glfwWindowShouldClose_record_replay one_event_world 0).2.1 rfl Nat.zero_lt_one⟩⟩

/-- C9. Simulation update, in exact arithmetic (any ring of coordinates). For every key
state and duration, `get_delta_pos` is the vector ((right − left)·dt, (up − down)·dt, 0),
a pressed key counting 1 and a released key 0, dt being the duration converted to a
coordinate; and a tick that returns has stored its dt and moved Position to exactly
Position + get_delta_pos of the key state it left, the z component unchanged. -/
theorem simulation_update {F D : Type} [Ring F] [FloatCast D F] (s : StateUpdateData D)
    (dt : D) (w w' : World F D) (h : tick dt w = Except.ok w') :
    (s.get_delta_pos : Vec3 F) =
      ⟨((if s.right_pressed then 1 else 0) - (if s.left_pressed then 1 else 0)) *
          FloatCast.cast s.dt,
        ((if s.up_pressed then 1 else 0) - (if s.down_pressed then 1 else 0)) *
          FloatCast.cast s.dt,
        0⟩ ∧
    w'.state_update_data.dt = dt ∧
    w'.state.position = w.state.position.add w'.state_update_data.get_delta_pos ∧
    w'.state.position.z = w.state.position.z := by
  have hdelta : ∀ t : StateUpdateData D, (t.get_delta_pos : Vec3 F) =
      ⟨((if t.right_pressed then 1 else 0) - (if t.left_pressed then 1 else 0)) *
          FloatCast.cast t.dt,
        ((if t.up_pressed then 1 else 0) - (if t.down_pressed then 1 else 0)) *
          FloatCast.cast t.dt,
        0⟩ := by
    intro t
    unfold StateUpdateData.get_delta_pos Vec3.mul Vec3.init
    cases t.up_pressed <;> cases t.down_pressed <;> cases t.left_pressed <;>
      cases t.right_pressed <;> simp
  obtain ⟨-, -, -, -, -, -, hdt, hpos, -⟩ := tick_frame dt w w' h
  refine ⟨hdelta s, hdt, ?_, ?_⟩
  · rw [hpos]; rfl
  · rw [hpos, hdelta]
    simp [Vec3.add_assign]

/-- Witness of C9: the first tick of the scenario, on the rationals. -/
theorem simulation_update_witness :
    ∃ w' : World ℚ ℚ, tick (1 / 10) scenario_world = Except.ok w' ∧
      ((diagonal_keys.get_delta_pos : Vec3 ℚ) =
        ⟨((if diagonal_keys.right_pressed then 1 else 0) -
            (if diagonal_keys.left_pressed then 1 else 0)) * FloatCast.cast diagonal_keys.dt,
          ((if diagonal_keys.up_pressed then 1 else 0) -
            (if diagonal_keys.down_pressed then 1 else 0)) * FloatCast.cast diagonal_keys.dt,
          0⟩ ∧
      w'.state_update_data.dt = 1 / 10 ∧
      w'.state.position = scenario_world.state.position.add w'.state_update_data.get_delta_pos ∧
      w'.state.position.z = scenario_world.state.position.z) := by
  obtain ⟨w', h, -⟩ := tick_recording_spec (1 / 10) scenario_world rfl rfl rfl
  exact ⟨w', h, simulation_update diagonal_keys (1 / 10) scenario_world w' h⟩

/-- C10. Concrete scenario, on the rationals. The live driver of §4.5 runs `tick` and `term`
in the windowing library of the scenario, with dt = 0.1 every time: poll 1 delivers
nothing, poll 2 the event key=UP action=Press (any scancode and mods), poll 3 nothing; the
close queries answer false, false, true. The driver stops after three ticks; the recorded
streams are duration=[0.1,0.1,0.1], events=[None, Some(UP-Press), None],
close=[false,false,true]; the positions printed are (0,0,0), (0,0.1,0), (0,0.2,0). The
playback run that follows returns after exactly three ticks, prints the same positions
and stops at (0,0.2,0); it has made no close query: its cursor on the close values is
still 0 and the windowing library is as the live run left it. -/
theorem concrete_scenario (scancode mods : Int) (extra : Nat) :
    ∃ (w1 w2 : World ℚ ℚ) (out : List (Line ℚ ℚ)),
      FixedFrequencyLoop.start (fun _ => (1 / 10 : ℚ)) tick term (extra + 3) 0
        (World.init (scenario_glfw scancode mods)) = Except.ok w1 ∧
      w1.fflps.dt_history = [1 / 10, 1 / 10, 1 / 10] ∧
      w1.glfw_playback.glfwPollEvents_produced_function_call_history =
        [none, some ⟨GLFW_KEY_UP, scancode, GLFW_PRESS, mods⟩, none] ∧
      w1.glfw_playback.glfw_window_should_close_values = [false, false, true] ∧
      positions_after w1.cout = [(0, ⟨0, 0, 0⟩), (1, ⟨0, 1 / 10, 0⟩), (2, ⟨0, 1 / 5, 0⟩)] ∧
      w1.state.position = ⟨0, 1 / 5, 0⟩ ∧
      FixedFrequencyLoopPlaybackSystem.start tick term (extra + 4) (reset_and_switch w1) =
        Except.ok w2 ∧
      w2.cout = w1.cout ++ out ∧
      positions_after out = [(0, ⟨0, 0, 0⟩), (1, ⟨0, 1 / 10, 0⟩), (2, ⟨0, 1 / 5, 0⟩)] ∧
      w2.state.position = ⟨0, 1 / 5, 0⟩ ∧
      w2.current_tick = 3 ∧
      w2.glfw_playback.glfwPollEvents_produced_function_call_history_playback_idx = 3 ∧
      w2.glfw_playback.playback_idx = 0 ∧
      w2.glfw = w1.glfw := by
  have hdrive : FixedFrequencyLoop.start (fun _ => (1 / 10 : ℚ)) tick term (extra + 3) 0
      (World.init (scenario_glfw scancode mods) : World ℚ ℚ) =
      live_run (driver_calls (fun _ => (1 / 10 : ℚ)) 0 3)
        (World.init (scenario_glfw scancode mods)) := by
    have := FixedFrequencyLoop_start_eq_live_run (fun _ => (1 / 10 : ℚ)) 2 extra 0
      (World.init (scenario_glfw scancode mods) : World ℚ ℚ) rfl rfl rfl
      (by simp [World.init])
      (by
        intro j hj
        have hj2 : j = 0 ∨ j = 1 := by omega
        rcases hj2 with rfl | rfl <;> simp [World.init, scenario_glfw])
      (by left; simp [World.init, scenario_glfw])
    rw [show extra + 3 = 2 + extra + 1 by omega]
    exact this
  obtain ⟨w1, h, hhist, hdts, -, hcore, hpos, hplay⟩ :=
    record_then_playback (F := ℚ) (scenario_glfw scancode mods)
      (driver_calls (fun _ => (1 / 10 : ℚ)) 0 3)
  obtain ⟨-, -, hvals⟩ := live_run_close_spec _ _ w1 rfl rfl rfl h
  obtain ⟨w2, p, pglfw, -, -, -, pidx, ppidx, pcore, out, pout, ppos⟩ :=
    hplay (extra + 4) (by simp [driver_calls, ticks_of])
  have hinputs : live_inputs (scenario_glfw scancode mods).key_events
      (scenario_glfw scancode mods).poll_events_calls
      (driver_calls (fun _ => (1 / 10 : ℚ)) 0 3) =
      [([], 1 / 10), ([⟨GLFW_KEY_UP, scancode, GLFW_PRESS, mods⟩], 1 / 10), ([], 1 / 10)] := by
    simp [driver_calls, live_inputs, scenario_glfw]
  have hrun : core_run
      [([], (1 / 10 : ℚ)), ([⟨GLFW_KEY_UP, scancode, GLFW_PRESS, mods⟩], 1 / 10), ([], 1 / 10)]
      (World.init (scenario_glfw scancode mods) : World ℚ ℚ).core =
      ⟨⟨true, false, false, false, 1 / 10⟩, ⟨0, 1 / 5, 0⟩, 3⟩ := by
    simp [core_run, core_step, press_key, World.core, World.init, State.init, Vec3.init,
      StateUpdateData.init, StateUpdateData.get_delta_pos, Vec3.add_assign, Vec3.mul,
      FloatCast.cast, GLFW_KEY_UP, GLFW_KEY_W, GLFW_PRESS]
    norm_num
  have htrace : core_trace
      [([], (1 / 10 : ℚ)), ([⟨GLFW_KEY_UP, scancode, GLFW_PRESS, mods⟩], 1 / 10), ([], 1 / 10)]
      (World.init (scenario_glfw scancode mods) : World ℚ ℚ).core =
      [(0, ⟨0, 0, 0⟩), (1, ⟨0, 1 / 10, 0⟩), (2, ⟨0, 1 / 5, 0⟩)] := by
    simp [core_trace, core_step, press_key, World.core, World.init, State.init, Vec3.init,
      StateUpdateData.init, StateUpdateData.get_delta_pos, Vec3.add_assign, Vec3.mul,
      FloatCast.cast, GLFW_KEY_UP, GLFW_KEY_W, GLFW_PRESS]
    norm_num
  rw [hinputs] at hhist hdts hcore hpos pcore ppos
  simp only [List.map_cons, List.map_nil, List.zip_cons_cons, List.zip_nil_right,
    List.getLast?_nil, List.getLast?_singleton, Option.toList] at hhist hdts pcore ppos
  rw [hrun] at hcore pcore
  rw [htrace] at hpos ppos
  refine ⟨w1, w2, out, by rw [hdrive]; exact h, hdts, hhist, ?_, hpos, ?_, p, pout, ppos, ?_, ?_,
    ?_, ppidx, pglfw⟩
  · rw [hvals]
    simp [World.init, GLFWPlayback.init, driver_calls, live_close_values, scenario_glfw]
  · exact congrArg Core.position hcore
  · exact congrArg Core.position pcore
  · exact congrArg Core.current_tick pcore
  · rw [pidx]; rfl

/-- C11. Boundary reset. For every live run from the initial program state, whatever key
state and position it ends with, the state after the statements of `main` between the two
drivers has all four key booleans false, Position at the origin, the tick counter 0 and
both stream cursors, the event cursor and the close-value cursor, at 0 (the live run never
moves them), while the event history, the close values and `dt_history` are what the live
run recorded. The first playback tick starts in that state, after the loop has printed
its line. -/
theorem boundary_reset {F D : Type} [Zero F] [One F] [Add F] [Sub F] [Mul F]
    [FloatCast D F] [Zero D] (glfw : GLFW) (calls : List (Call D)) :
    ∃ w1 : World F D, live_run calls (World.init glfw) = Except.ok w1 ∧
      (reset_and_switch w1).state_update_data.up_pressed = false ∧
      (reset_and_switch w1).state_update_data.down_pressed = false ∧
      (reset_and_switch w1).state_update_data.left_pressed = false ∧
      (reset_and_switch w1).state_update_data.right_pressed = false ∧
      (reset_and_switch w1).state.position = ⟨0, 0, 0⟩ ∧
      (reset_and_switch w1).current_tick = 0 ∧
      (reset_and_switch w1).glfw_playback.glfwPollEvents_produced_function_call_history_playback_idx
        = 0 ∧
      (reset_and_switch w1).glfw_playback.playback_idx = 0 ∧
      (reset_and_switch w1).glfw_playback.glfwPollEvents_produced_function_call_history =
        w1.glfw_playback.glfwPollEvents_produced_function_call_history ∧
      (reset_and_switch w1).glfw_playback.glfw_window_should_close_values =
        w1.glfw_playback.glfw_window_should_close_values ∧
      (reset_and_switch w1).fflps.dt_history = w1.fflps.dt_history ∧
      w1.glfw_playback.glfwPollEvents_produced_function_call_history =
        (live_inputs glfw.key_events glfw.poll_events_calls calls).map (fun p => p.1.getLast?) ∧
      w1.glfw_playback.glfw_window_should_close_values =
        live_close_values glfw.should_close glfw.should_close_calls calls ∧
      w1.fflps.dt_history =
        (live_inputs glfw.key_events glfw.poll_events_calls calls).map (fun p => p.2) ∧
      (∀ (dt : D) (rest : List D) (fuel : Nat), w1.fflps.dt_history = dt :: rest →
        FixedFrequencyLoopPlaybackSystem.start tick term (fuel + 1) (reset_and_switch w1) =
          match tick dt ((reset_and_switch w1).print
              (Line.loop_index 0 (reset_and_switch w1).fflps.dt_history.length)) with
          | Except.error e => Except.error e
          | Except.ok w => FixedFrequencyLoopPlaybackSystem.start_loop tick fuel 1 w) := by
  obtain ⟨w1, h, -, -, -, -, -, h6, h7, -, -, h10, h11⟩ :=
    live_run_spec calls (World.init glfw : World F D) rfl rfl rfl
  obtain ⟨-, -, h3⟩ := live_run_close_spec calls _ w1 rfl rfl rfl h
  refine ⟨w1, h, rfl, rfl, rfl, rfl, rfl, rfl, ?_, ?_, rfl, rfl, rfl, ?_, ?_, ?_, ?_⟩
  · simpa [reset_and_switch, World.init, GLFWPlayback.init] using h10
  · simpa [reset_and_switch, World.init, GLFWPlayback.init] using h11
  · simpa [World.init, GLFWPlayback.init] using h6
  · simpa [World.init, GLFWPlayback.init] using h3
  · simpa [World.init] using h7
  · intro dt rest fuel hd
    have hd' : (reset_and_switch w1).fflps.dt_history = dt :: rest := hd
    simp only [FixedFrequencyLoopPlaybackSystem.start,
      FixedFrequencyLoopPlaybackSystem.start_loop, World.print, hd', List.length_cons,
      Nat.zero_lt_succ, if_true, List.getElem?_cons_zero]

/-- C12. Mode consistency. Both mode flags are RECORDING in the initial program state;
neither `tick` nor `term` ever changes a flag, the only change is the one of `main`
between the two drivers, which sets both to PLAYBACK. So in a live run every `tick` and
`term` is entered with both flags RECORDING, and in the playback run every `tick` is
entered with both flags PLAYBACK: the runs that check both flags at every entry give the
same worlds, the check never fires. -/
theorem mode_consistency {F D : Type} [Zero F] [One F] [Add F] [Sub F] [Mul F]
    [FloatCast D F] [Zero D] (glfw : GLFW) (calls : List (Call D)) (extra : Nat) :
    ((World.init glfw : World F D).mode = Mode.RECORDING ∧
      (World.init glfw : World F D).glfw_playback.mode = Mode.RECORDING) ∧
    (∀ (dt : D) (w w' : World F D), tick dt w = Except.ok w' →
      w'.mode = w.mode ∧ w'.glfw_playback.mode = w.glfw_playback.mode) ∧
    (∀ (b : Bool) (w w' : World F D), term w = Except.ok (b, w') →
      w'.mode = w.mode ∧ w'.glfw_playback.mode = w.glfw_playback.mode) ∧
    ∃ w1 w2 : World F D,
      live_run calls (World.init glfw) = Except.ok w1 ∧
      live_run_asserting Mode.RECORDING calls (World.init glfw) = Except.ok w1 ∧
      w1.mode = Mode.RECORDING ∧ w1.glfw_playback.mode = Mode.RECORDING ∧
      (reset_and_switch w1).mode = Mode.PLAYBACK ∧
      (reset_and_switch w1).glfw_playback.mode = Mode.PLAYBACK ∧
      FixedFrequencyLoopPlaybackSystem.start tick term (ticks_of calls + extra + 1)
        (reset_and_switch w1) = Except.ok w2 ∧
      FixedFrequencyLoopPlaybackSystem.start (tick_asserting Mode.PLAYBACK)
        (term_asserting Mode.PLAYBACK) (ticks_of calls + extra + 1)
        (reset_and_switch w1) = Except.ok w2 ∧
      w2.mode = Mode.PLAYBACK ∧ w2.glfw_playback.mode = Mode.PLAYBACK := by
  refine ⟨⟨rfl, rfl⟩, ?_, ?_, ?_⟩
  · intro dt w w' h
    obtain ⟨t1, t2, -⟩ := tick_frame dt w w' h
    exact ⟨t1, t2⟩
  · intro b w w' h
    obtain ⟨t1, t2, -⟩ := term_frame w w' b h
    exact ⟨t1, t2⟩
  · obtain ⟨w1, h, -, -, -, -, -, hplay⟩ := record_then_playback (F := F) glfw calls
    obtain ⟨w2, p, -⟩ := hplay (ticks_of calls + extra + 1) (by omega)
    obtain ⟨m1, m2, -⟩ := live_run_frame calls _ w1 h
    have hp2 := start_loop_modes _ 0 (reset_and_switch w1) w2 p
    refine ⟨w1, w2, h, ?_, m1, m2, rfl, rfl, p, ?_, hp2.1, hp2.2⟩
    · rw [live_run_asserting_eq Mode.RECORDING calls _ rfl rfl]; exact h
    · unfold FixedFrequencyLoopPlaybackSystem.start
      rw [start_loop_asserting_eq Mode.PLAYBACK _ 0 _ rfl rfl]
      exact p

/-- C13. Independent cursors. In PLAYBACK mode a call of `glfwPollEvents_` that returns has
advanced the event cursor by one and left every other member of `GLFWPlayback` as it was,
`playback_idx` and the unused `poll_events_call_number` included; outside `GLFWPlayback`
it has changed nothing but the key booleans, the scratch slot and the printed output. A
call of `glfwWindowShouldClose_` that returns has changed nothing at all but
`playback_idx`, advanced by one, so the event cursor is as it was. Neither wrapper reads
or writes a counter of the other. -/
theorem independent_cursors {F D : Type} (w : World F D)
    (hmode : w.glfw_playback.mode = Mode.PLAYBACK) :
    (∀ w' : World F D, GLFWPlayback.glfwPollEvents_ w = Except.ok w' →
      w'.glfw_playback = { w.glfw_playback with
        glfwPollEvents_produced_function_call_history_playback_idx :=
          w.glfw_playback.glfwPollEvents_produced_function_call_history_playback_idx + 1 } ∧
      w'.glfw_playback.playback_idx = w.glfw_playback.playback_idx ∧
      w'.glfw_playback.poll_events_call_number = w.glfw_playback.poll_events_call_number ∧
      w'.state = w.state ∧ w'.state_update_data.dt = w.state_update_data.dt ∧
      w'.fflps = w.fflps ∧ w'.max_ticks = w.max_ticks ∧
      w'.recording_done = w.recording_done ∧ w'.current_tick = w.current_tick ∧
      w'.mode = w.mode ∧ w'.glfw = w.glfw) ∧
    (∀ (b : Bool) (w' : World F D), GLFWPlayback.glfwWindowShouldClose_ w = Except.ok (b, w') →
      w' = { w with glfw_playback := { w.glfw_playback with
        playback_idx := w.glfw_playback.playback_idx + 1 } } ∧
      w'.glfw_playback.glfwPollEvents_produced_function_call_history_playback_idx =
        w.glfw_playback.glfwPollEvents_produced_function_call_history_playback_idx ∧
      w'.glfw_playback.poll_events_call_number = w.glfw_playback.poll_events_call_number) := by
  refine ⟨?_, ?_⟩
  · intro w' h
    obtain ⟨-, -, f3, f4, f5, f6, f7, -, -, -, f11⟩ := glfwPollEvents_frame w w' h
    cases hs : w.glfw_playback.glfwPollEvents_produced_function_call_history[
      w.glfw_playback.glfwPollEvents_produced_function_call_history_playback_idx]? with
    | none =>
      unfold GLFWPlayback.glfwPollEvents_ at h
      simp [hmode, hs] at h
    | some slot =>
      rw [glfwPollEvents_playback_eq w hmode slot hs] at h
      cases h
      exact ⟨rfl, rfl, rfl, rfl, f11, rfl, rfl, rfl, rfl, rfl, rfl⟩
  · intro b w' h
    cases hs : w.glfw_playback.glfw_window_should_close_values[
      w.glfw_playback.playback_idx]? with
    | none =>
      unfold GLFWPlayback.glfwWindowShouldClose_ at h
      simp [hmode, hs] at h
    | some v =>
      rw [glfwWindowShouldClose_playback_eq w hmode v hs] at h
      cases h
      exact ⟨rfl, rfl, rfl⟩

/-- Witness of C13: the playback start with one recorded event and one close value. -/
theorem independent_cursors_witness :
    one_event_world.glfw_playback.mode = Mode.PLAYBACK ∧
    (∀ w' : World ℚ ℚ, GLFWPlayback.glfwPollEvents_ one_event_world = Except.ok w' →
      w'.glfw_playback.playback_idx = one_event_world.glfw_playback.playback_idx) ∧
    (∀ (b : Bool) (w' : World ℚ ℚ),
      GLFWPlayback.glfwWindowShouldClose_ one_event_world = Except.ok (b, w') →
      w'.glfw_playback.glfwPollEvents_produced_function_call_history_playback_idx =
        one_event_world.glfw_playback.glfwPollEvents_produced_function_call_history_playback_idx) :=
  ⟨rfl,
   fun w' h => ((independent_cursors one_event_world rfl).1 w' h).2.1,
   fun b w' h => ((independent_cursors one_event_world rfl).2 b w' h).2.1⟩

/-- C14. Close queries are recorded on every stop check. Every evaluation of `term` in
RECORDING mode, whatever `recording_done` is, makes one real close query, appends exactly
one value, the answer of that query, to `glfw_window_should_close_values` and returns
(that value OR `recording_done`). Hence a live run from the initial program state in
which `term` is evaluated K times leaves a close-value stream of length K, after K real
queries. -/
theorem term_records_every_close_query {F D : Type} [Zero F] [One F] [Add F] [Sub F] [Mul F]
    [FloatCast D F] [Zero D] (w : World F D) (glfw : GLFW) (calls : List (Call D)) :
    (w.glfw_playback.mode = Mode.RECORDING → ∃ w' : World F D,
      term w = Except.ok
        (decide (w.glfw.should_close w.glfw.should_close_calls ≠ 0) || w.recording_done, w') ∧
      w'.glfw_playback.glfw_window_should_close_values =
        w.glfw_playback.glfw_window_should_close_values ++
          [decide (w.glfw.should_close w.glfw.should_close_calls ≠ 0)] ∧
      w'.glfw.should_close_calls = w.glfw.should_close_calls + 1 ∧
      w'.recording_done = w.recording_done) ∧
    ∃ w1 : World F D, live_run calls (World.init glfw) = Except.ok w1 ∧
      w1.glfw_playback.glfw_window_should_close_values =
        live_close_values glfw.should_close glfw.should_close_calls calls ∧
      w1.glfw_playback.glfw_window_should_close_values.length = terms_of calls ∧
      w1.glfw.should_close_calls = glfw.should_close_calls + terms_of calls := by
  refine ⟨?_, ?_⟩
  · intro hm
    exact ⟨_, term_recording_eq w hm, rfl, rfl, rfl⟩
  · obtain ⟨w1, h, -⟩ := live_run_spec calls (World.init glfw : World F D) rfl rfl rfl
    obtain ⟨-, h2, h3⟩ := live_run_close_spec calls _ w1 rfl rfl rfl h
    have h3' : w1.glfw_playback.glfw_window_should_close_values =
        live_close_values glfw.should_close glfw.should_close_calls calls := by
      simpa [World.init, GLFWPlayback.init] using h3
    refine ⟨w1, h, h3', ?_, ?_⟩
    · rw [h3', live_close_values_length]
    · simpa [World.init] using h2

/-- Witness of C14: `term` in the initial program state of the scenario. -/
theorem term_records_every_close_query_witness :
    scenario_world.glfw_playback.mode = Mode.RECORDING ∧
    ∃ w' : World ℚ ℚ,
      term scenario_world = Except.ok
        (decide (scenario_world.glfw.should_close scenario_world.glfw.should_close_calls ≠ 0)
          || scenario_world.recording_done, w') ∧
      w'.glfw_playback.glfw_window_should_close_values =
        scenario_world.glfw_playback.glfw_window_should_close_values ++
          [decide (scenario_world.glfw.should_close
            scenario_world.glfw.should_close_calls ≠ 0)] ∧
      w'.glfw.should_close_calls = scenario_world.glfw.should_close_calls + 1 ∧
      w'.recording_done = scenario_world.recording_done :=
  ⟨rfl, (term_records_every_close_query scenario_world (scenario_glfw 0 0) scenario_calls).1 rfl⟩

/-- C15, as stated, fails. A playback start with one recorded event has both mode flags
PLAYBACK and, as after a live run stopped by its cap, `recording_done` true; its first
tick returns and leaves `recording_done` false. So a playback tick changes a variable that is
none of the cursors, the key state, Position, the scratch slot and the tick counter. -/
theorem playback_tick_changes_recording_done :
    recording_done_world.mode = Mode.PLAYBACK ∧
    recording_done_world.glfw_playback.mode = Mode.PLAYBACK ∧
    recording_done_world.recording_done = true ∧
    ∃ w' : World ℚ ℚ, tick (1 / 10) recording_done_world = Except.ok w' ∧
      w'.recording_done = false := by
  obtain ⟨w', h, -, -, -, -, -, -, -, -, -, hr, -⟩ :=
    tick_playback_spec (1 / 10) recording_done_world rfl rfl
      (some ⟨GLFW_KEY_UP, 0, GLFW_PRESS, 0⟩) rfl
  refine ⟨rfl, rfl, rfl, w', h, ?_⟩
  rw [hr]
  rfl

/-- C15, amended. A tick entered with both mode flags PLAYBACK that returns leaves the
event history, the close values and `dt_history` as they were; what it changes is the
event cursor (advanced by one), the key state with the stored duration, Position, the
scratch slot, the tick counter, `recording_done` (overwritten with current_tick == 300)
and the printed output, nothing else. In particular `dt_history` does not grow while the
playback driver iterates over it, so the playback loop terminates: with a loop bound above
the number of durations it does not run out; it returns with the recordings as they
were, or stops at an unchecked read of an exhausted event history. -/
theorem playback_is_read_only {F D : Type} [Zero F] [One F] [Add F] [Sub F] [Mul F]
    [FloatCast D F] (dt : D) (w : World F D) (extra : Nat)
    (hmode : w.mode = Mode.PLAYBACK) (hmode2 : w.glfw_playback.mode = Mode.PLAYBACK) :
    (∀ w' : World F D, tick dt w = Except.ok w' →
      w'.glfw_playback.glfwPollEvents_produced_function_call_history =
        w.glfw_playback.glfwPollEvents_produced_function_call_history ∧
      w'.glfw_playback.glfw_window_should_close_values =
        w.glfw_playback.glfw_window_should_close_values ∧
      w'.fflps.dt_history = w.fflps.dt_history ∧
      w'.glfw_playback = { w.glfw_playback with
        glfwPollEvents_produced_function_call_history_playback_idx :=
          w.glfw_playback.glfwPollEvents_produced_function_call_history_playback_idx + 1 } ∧
      w'.fflps = w.fflps ∧ w'.max_ticks = w.max_ticks ∧ w'.mode = w.mode ∧
      w'.glfw = w.glfw ∧
      w'.recording_done = decide (w.current_tick = 300) ∧
      w'.current_tick = (w.current_tick + 1) % 2 ^ 64) ∧
    ((∃ w2 : World F D,
        FixedFrequencyLoopPlaybackSystem.start tick term
          (w.fflps.dt_history.length + extra + 1) w = Except.ok w2 ∧
        w2.fflps.dt_history = w.fflps.dt_history ∧
        w2.glfw_playback.glfwPollEvents_produced_function_call_history =
          w.glfw_playback.glfwPollEvents_produced_function_call_history ∧
        w2.glfw_playback.glfw_window_should_close_values =
          w.glfw_playback.glfw_window_should_close_values) ∨
      FixedFrequencyLoopPlaybackSystem.start tick term
        (w.fflps.dt_history.length + extra + 1) w = Except.error Fault.UndefinedBehaviour) := by
  refine ⟨?_, ?_⟩
  · intro w' h
    cases hs : w.glfw_playback.glfwPollEvents_produced_function_call_history[
      w.glfw_playback.glfwPollEvents_produced_function_call_history_playback_idx]? with
    | none =>
      have hp : GLFWPlayback.glfwPollEvents_ w = Except.error Fault.UndefinedBehaviour := by
        unfold GLFWPlayback.glfwPollEvents_
        simp [hmode2, hs]
      unfold tick at h
      rw [hp] at h
      cases h
    | some slot =>
      rw [tick_playback_eq dt w hmode hmode2 slot hs] at h
      cases h
      exact ⟨rfl, rfl, rfl, rfl, rfl, rfl, rfl, rfl, rfl, rfl⟩
  · rcases start_loop_tick_terminates w.fflps.dt_history.length extra 0 w hmode hmode2
      (by omega) with ⟨w2, h, -, -, h3, h4, h5⟩ | h
    · exact Or.inl ⟨w2, h, h3, h4, h5⟩
    · exact Or.inr h

/-- Witness of C15 amended: the playback start with one recorded event. -/
theorem playback_is_read_only_witness :
    one_event_world.mode = Mode.PLAYBACK ∧
    one_event_world.glfw_playback.mode = Mode.PLAYBACK ∧
    (∀ w' : World ℚ ℚ, tick (1 / 10) one_event_world = Except.ok w' →
      w'.fflps.dt_history = one_event_world.fflps.dt_history) ∧
    ((∃ w2 : World ℚ ℚ,
        FixedFrequencyLoopPlaybackSystem.start tick term
          (one_event_world.fflps.dt_history.length + 0 + 1) one_event_world = Except.ok w2 ∧
        w2.fflps.dt_history = one_event_world.fflps.dt_history ∧
        w2.glfw_playback.glfwPollEvents_produced_function_call_history =
          one_event_world.glfw_playback.glfwPollEvents_produced_function_call_history ∧
        w2.glfw_playback.glfw_window_should_close_values =
          one_event_world.glfw_playback.glfw_window_should_close_values) ∨
      FixedFrequencyLoopPlaybackSystem.start tick term
        (one_event_world.fflps.dt_history.length + 0 + 1) one_event_world =
        Except.error Fault.UndefinedBehaviour) :=
  ⟨rfl, rfl,
   fun w' h => ((playback_is_read_only (1 / 10) one_event_world 0 rfl rfl).1 w' h).2.2.1,
   (playback_is_read_only (1 / 10) one_event_world 0 rfl rfl).2⟩

/-- C16. Key listener mapping. For every key event and every state, `user_key_callback`
writes pressed = (action is Press or Repeat) to exactly one key boolean, the other three
and the stored duration unchanged: up for key W or UP, down for S or DOWN, left for A or
LEFT, right for D or RIGHT; for every other key the key booleans are unchanged. The key
booleans it leaves do not depend on scancode or mods, and the same event applied twice
leaves the key booleans it leaves when applied once. -/
theorem user_key_callback_mapping {F D : Type} (key scancode action mods : Int)
    (w : World F D) :
    ((key = GLFW_KEY_W ∨ key = GLFW_KEY_UP) →
      (user_key_callback key scancode action mods w).state_update_data =
        { w.state_update_data with
          up_pressed := (action == GLFW_PRESS || action == GLFW_REPEAT) }) ∧
    ((key = GLFW_KEY_S ∨ key = GLFW_KEY_DOWN) →
      (user_key_callback key scancode action mods w).state_update_data =
        { w.state_update_data with
          down_pressed := (action == GLFW_PRESS || action == GLFW_REPEAT) }) ∧
    ((key = GLFW_KEY_A ∨ key = GLFW_KEY_LEFT) →
      (user_key_callback key scancode action mods w).state_update_data =
        { w.state_update_data with
          left_pressed := (action == GLFW_PRESS || action == GLFW_REPEAT) }) ∧
    ((key = GLFW_KEY_D ∨ key = GLFW_KEY_RIGHT) →
      (user_key_callback key scancode action mods w).state_update_data =
        { w.state_update_data with
          right_pressed := (action == GLFW_PRESS || action == GLFW_REPEAT) }) ∧
    (key ≠ GLFW_KEY_W → key ≠ GLFW_KEY_UP → key ≠ GLFW_KEY_S → key ≠ GLFW_KEY_DOWN →
      key ≠ GLFW_KEY_A → key ≠ GLFW_KEY_LEFT → key ≠ GLFW_KEY_D → key ≠ GLFW_KEY_RIGHT →
      (user_key_callback key scancode action mods w).state_update_data =
        w.state_update_data) ∧
    (∀ other_scancode other_mods : Int,
      (user_key_callback key other_scancode action other_mods w).state_update_data =
        (user_key_callback key scancode action mods w).state_update_data) ∧
    (user_key_callback key scancode action mods
        (user_key_callback key scancode action mods w)).state_update_data =
      (user_key_callback key scancode action mods w).state_update_data := by
  simp only [user_key_callback_state_update_data]
  refine ⟨?_, ?_, ?_, ?_, ?_, ?_, ?_⟩
  · rintro (rfl | rfl) <;>
      simp [press_key, GLFW_KEY_W, GLFW_KEY_UP, GLFW_PRESS, GLFW_REPEAT]
  · rintro (rfl | rfl) <;>
      simp [press_key, GLFW_KEY_W, GLFW_KEY_UP, GLFW_KEY_S, GLFW_KEY_DOWN, GLFW_PRESS,
        GLFW_REPEAT]
  · rintro (rfl | rfl) <;>
      simp [press_key, GLFW_KEY_W, GLFW_KEY_UP, GLFW_KEY_S, GLFW_KEY_DOWN, GLFW_KEY_A,
        GLFW_KEY_LEFT, GLFW_PRESS, GLFW_REPEAT]
  · rintro (rfl | rfl) <;>
      simp [press_key, GLFW_KEY_W, GLFW_KEY_UP, GLFW_KEY_S, GLFW_KEY_DOWN, GLFW_KEY_A,
        GLFW_KEY_LEFT, GLFW_KEY_D, GLFW_KEY_RIGHT, GLFW_PRESS, GLFW_REPEAT]
  · intro h1 h2 h3 h4 h5 h6 h7 h8
    simp [press_key, h1, h2, h3, h4, h5, h6, h7, h8]
  · intro _ _; trivial
  · unfold press_key
    simp only []
    split_ifs <;> rfl

/-- C17. Recording length cap. A tick that returns has set `recording_done` to
(current_tick == 300), current_tick being the index of that tick, counted from 0. So when
the close query answers false 301 times, the live driver of §4.5, which evaluates `term`
after each tick, has not stopped within 300 iterations and stops after exactly 301 ticks,
not after max_ticks = 200: the tick counter is 301, `recording_done` is true, and 301
durations, 301 event slots and 301 close values are recorded; `max_ticks` is still 200. -/
theorem recording_length_cap {F D : Type} [Zero F] [One F] [Add F] [Sub F] [Mul F]
    [FloatCast D F] [Zero D] (glfw : GLFW) (wall_clock_elapsed : Nat → D) (extra : Nat)
    (hopen : ∀ j : Nat, j < 301 → glfw.should_close (glfw.should_close_calls + j) = 0) :
    (∀ (dt : D) (w w' : World F D), tick dt w = Except.ok w' →
      w'.recording_done = decide (w.current_tick = 300)) ∧
    (∀ fuel : Nat, fuel ≤ 300 →
      FixedFrequencyLoop.start wall_clock_elapsed tick term fuel 0
        (World.init glfw : World F D) = Except.error Fault.OutOfFuel) ∧
    ∃ w1 : World F D,
      FixedFrequencyLoop.start wall_clock_elapsed tick term (300 + extra + 1) 0
        (World.init glfw) = Except.ok w1 ∧
      w1.current_tick = 301 ∧
      (positions_after w1.cout).length = 301 ∧
      w1.recording_done = true ∧
      w1.fflps.dt_history.length = 301 ∧
      w1.glfw_playback.glfwPollEvents_produced_function_call_history.length = 301 ∧
      w1.glfw_playback.glfw_window_should_close_values.length = 301 ∧
      w1.max_ticks = 200 := by
  refine ⟨?_, ?_, ?_⟩
  · intro dt w w' h
    exact (tick_frame dt w w' h).2.2.2.2.2.2.2.2.1
  · intro fuel hfuel
    exact FixedFrequencyLoop_start_out_of_fuel wall_clock_elapsed fuel 0
      (World.init glfw : World F D) rfl rfl rfl
      (by
        have : (World.init glfw : World F D).current_tick = 0 := rfl
        rw [this]
        have : (300 : Nat) < 2 ^ 64 := by norm_num
        omega)
      (by
        intro j hj
        have h0 := hopen j (by omega)
        have : (World.init glfw : World F D).current_tick = 0 := rfl
        exact ⟨h0, by rw [this]; omega⟩)
  · have hdrive := FixedFrequencyLoop_start_eq_live_run wall_clock_elapsed 300 extra 0
      (World.init glfw : World F D) rfl rfl rfl
      (by
        have : (World.init glfw : World F D).current_tick = 0 := rfl
        rw [this]
        norm_num)
      (by
        intro j hj
        have h0 := hopen j (by omega)
        have : (World.init glfw : World F D).current_tick = 0 := rfl
        exact ⟨h0, by rw [this]; omega⟩)
      (Or.inr rfl)
    obtain ⟨w1, h, hhist, hdts, -, hcore, hpos, -⟩ :=
      record_then_playback (F := F) glfw (driver_calls wall_clock_elapsed 0 301)
    obtain ⟨-, -, hvals⟩ := live_run_close_spec _ _ w1 rfl rfl rfl h
    obtain ⟨-, -, hmax⟩ := live_run_frame _ _ w1 h
    have hlen : (live_inputs glfw.key_events glfw.poll_events_calls
        (driver_calls wall_clock_elapsed 0 301)).length = 301 := by
      rw [live_inputs_length, ticks_of_driver_calls]
    have htick : w1.current_tick = 301 := by
      have := congrArg Core.current_tick hcore
      rw [core_run_current_tick _ _ (by rw [hlen]; norm_num [World.core, World.init]), hlen]
        at this
      simpa [World.core, World.init] using this
    have hdone : w1.recording_done = true := by
      have hsplit := driver_calls_succ wall_clock_elapsed 300 0
      rw [hsplit, live_run_append] at h
      obtain ⟨w0, h0, m1, m2, m3, -, -, -, -, c8, -⟩ :=
        live_run_spec (driver_calls wall_clock_elapsed 0 300) (World.init glfw : World F D)
          rfl rfl rfl
      rw [h0] at h
      have hlen0 : (live_inputs (World.init glfw : World F D).glfw.key_events
          (World.init glfw : World F D).glfw.poll_events_calls
          (driver_calls wall_clock_elapsed 0 300)).length = 300 := by
        rw [live_inputs_length, ticks_of_driver_calls]
      have ht0 : w0.current_tick = 300 := by
        have := congrArg Core.current_tick c8
        rw [core_run_current_tick _ _ (by rw [hlen0]; norm_num [World.core, World.init]),
          hlen0] at this
        simpa [World.core, World.init] using this
      obtain ⟨wa, hta, a1, a2, a3, -, -, -, -, -, -, -, -, -, -, -, a15⟩ :=
        tick_recording_spec (wall_clock_elapsed (0 + 300)) w0 m1 m2 m3
      obtain ⟨b, wb, htb, -, -, -, -, -, -, -, -, -, -, -, -, -, -, -, b16⟩ :=
        term_recording_spec wa a2
      simp only [live_run, hta, htb] at h
      cases h
      rw [b16, a15, ht0]
      rfl
    refine ⟨w1, hdrive.trans h, htick, ?_, hdone, ?_, ?_, ?_, ?_⟩
    · rw [hpos, core_trace_length, hlen]
    · rw [hdts, List.length_map, hlen]
    · rw [hhist, List.length_map, hlen]
    · rw [hvals, List.length_append, live_close_values_length, terms_of_driver_calls]
      rfl
    · rw [hmax]; rfl

/-- Witness of C17: a windowing library whose window is never asked to close, on the
rationals, with dt = 0.1 every time. -/
theorem recording_length_cap_witness :
    (∀ j : Nat, j < 301 →
      open_window_glfw.should_close (open_window_glfw.should_close_calls + j) = 0) ∧
    ∃ w1 : World ℚ ℚ,
      FixedFrequencyLoop.start (fun _ => (1 / 10 : ℚ)) tick term (300 + 0 + 1) 0
        (World.init open_window_glfw) = Except.ok w1 ∧
      w1.current_tick = 301 ∧
      (positions_after w1.cout).length = 301 ∧
      w1.recording_done = true ∧
      w1.fflps.dt_history.length = 301 ∧
      w1.glfw_playback.glfwPollEvents_produced_function_call_history.length = 301 ∧
      w1.glfw_playback.glfw_window_should_close_values.length = 301 ∧
      w1.max_ticks = 200 :=
  ⟨fun _ _ => rfl,
   (recording_length_cap open_window_glfw (fun _ => (1 / 10 : ℚ)) 0 (fun _ _ => rfl)).2.2⟩

end Claims

end GlfwInputReplay
